import Mathlib

/-!
Verification of the alert-processing microservice pipeline
(`app/core/...`, `app/db_functions/...`).

Python strings are modelled as lists of Unicode codepoints (`PyStr := List Nat`);
character classes (`\w`, `\s`, `str.lower`) are modelled over their ASCII behaviour,
which is the alphabet the pipeline operates on.  Machine integers do not appear;
datetimes are modelled by explicit calendar structures (where textual `isoformat`
output matters) or by an integer epoch-second timeline (where only comparisons
matter).  The LLM calls, the AMQP broker and the Jira HTTP client are external
collaborators: their responses enter the model as explicit oracle parameters.
-/

/-- Python `str` as a list of Unicode codepoints. -/
abbrev PyStr : Type := List Nat

/-- Conversion from a Lean string literal to the codepoint model. -/
def pyOfString (s : String) : PyStr := s.data.map Char.toNat

/-- Python `\s` / `str.split()` whitespace over the ASCII range:
space, tab, newline, carriage return, vertical tab, form feed. -/
def isPySpace (c : Nat) : Bool :=
  c == 32 || c == 9 || c == 10 || c == 13 || c == 11 || c == 12

/-- Negation of `isPySpace`, used as a `takeWhile`/`dropWhile` predicate. -/
def notSpace (c : Nat) : Bool := !(isPySpace c)

/-- Python regex `\w` over the ASCII range: `[A-Za-z0-9_]`. -/
def isWordChar (c : Nat) : Bool :=
  (decide (48 ≤ c) && decide (c ≤ 57)) ||
  (decide (65 ≤ c) && decide (c ≤ 90)) ||
  (decide (97 ≤ c) && decide (c ≤ 122)) ||
  c == 95

/-- Python `str.lower()` on one codepoint (ASCII behaviour: `A`-`Z` map down). -/
def pyLower (c : Nat) : Nat := if 65 ≤ c ∧ c ≤ 90 then c + 32 else c

/-- Python `text.lower()` over the whole string. -/
def lowerStr (s : PyStr) : PyStr := s.map pyLower

/-- Python `str.strip()`: drop whitespace from both ends. -/
def pyStrip (s : PyStr) : PyStr :=
  (((s.dropWhile isPySpace).reverse).dropWhile isPySpace).reverse

/-- Single pass of Python `str.split()`: `acc` holds the codepoints of the
current in-progress token in reverse order. -/
def pySplitAux : PyStr → PyStr → List PyStr
  | [], acc => if acc = [] then [] else [acc.reverse]
  | c :: rest, acc =>
    if isPySpace c then
      (if acc = [] then pySplitAux rest [] else acc.reverse :: pySplitAux rest [])
    else pySplitAux rest (c :: acc)

/-- Python `str.split()` (no separator): maximal runs of non-whitespace. -/
def pySplit (s : PyStr) : List PyStr := pySplitAux s []

/-- Python `' '.join(tokens)` (codepoint 32 is the space). -/
def joinSpace : List PyStr → PyStr
  | [] => []
  | [t] => t
  | t :: t' :: ts => t ++ (32 :: joinSpace (t' :: ts))

/-- The literal `controlup://` (the scheme before the link payload),
as matched by `re.sub(r'controlup://[^\s]+', '', text)` in
`teams_integration.py` (`TriggerMatcher._normalize_text`). -/
def linkLit : PyStr :=
  [99, 111, 110, 116, 114, 111, 108, 117, 112, 58, 47, 47]

/-- Does `re.sub`'s pattern `controlup://[^\s]+` match at the head of `l`?
The `[^\s]+` part requires at least one non-space codepoint after `://`. -/
def isLinkAt (l : PyStr) : Bool :=
  linkLit.isPrefixOf l &&
    (match l.drop 12 with
     | [] => false
     | c :: _ => notSpace c)

/-- `re.sub(r'controlup://[^\s]+', '', text)`: scan left to right, removing each
non-overlapping match (the greedy `[^\s]+` consumes the maximal non-space run).
The fuel argument only bounds the recursion: every step consumes at least one
codepoint, so fuel equal to the length never runs out. -/
def stripLinksF : Nat → PyStr → PyStr
  | 0, l => l
  | _ + 1, [] => []
  | f + 1, c :: rest =>
    if isLinkAt (c :: rest) then
      stripLinksF f (((c :: rest).drop 12).dropWhile notSpace)
    else
      c :: stripLinksF f rest

/-- The link-removal substitution over the whole string. -/
def stripLinks (l : PyStr) : PyStr := stripLinksF l.length l

/-- `re.sub(r'[^\w\s]', ' ', text)`: punctuation becomes a space. -/
def punctToSpace (s : PyStr) : PyStr :=
  s.map (fun c => if isWordChar c || isPySpace c then c else 32)

/-- `TriggerMatcher._normalize_text` (`teams_integration.py` lines 107-121):
lowercase, strip `controlup://` links, replace punctuation by spaces,
collapse whitespace, strip. -/
def normalizeText (s : PyStr) : PyStr :=
  if s = [] then []
  else pyStrip (joinSpace (pySplit (punctToSpace (stripLinks (lowerStr s)))))

/-- Python `TriggerMatcher._tokenize`: `set(text.split())`. -/
def tokenSet (s : PyStr) : Finset PyStr := (pySplit s).toFinset

/-- Jaccard token-overlap component of `_calculate_similarity`
(`teams_integration.py` lines 153-162), over already-normalized strings:
`|A ∩ B| / |A ∪ B|` when both token sets are non-empty and the union is
non-empty, `0.0` otherwise.  Float arithmetic is modelled exactly over `ℚ`. -/
def jaccardOfNorm (ni nd : PyStr) : ℚ :=
  let ti := tokenSet ni
  let td := tokenSet nd
  if ti.Nonempty ∧ td.Nonempty then
    (if 0 < (ti ∪ td).card then ((ti ∩ td).card : ℚ) / ((ti ∪ td).card : ℚ) else 0)
  else 0

/-- Positions (ascending) of codepoint `x` in `b`: difflib's `b2j` entry before
junk removal (`SequenceMatcher.__chain_b`). -/
def positionsIn (b : PyStr) (x : Nat) : List Nat :=
  (List.range b.length).filter (fun j => b.getD j 0 == x)

/-- difflib autojunk: with `len(b) >= 200`, elements occurring more than
`len(b) // 100 + 1` times are dropped from `b2j`. -/
def isPopularElt (b : PyStr) (x : Nat) : Bool :=
  decide (200 ≤ b.length) && decide (b.length / 100 + 1 < (positionsIn b x).length)

/-- difflib `b2j` lookup (with `isjunk=None`, so only autojunk filtering). -/
def b2j (b : PyStr) (x : Nat) : List Nat :=
  if isPopularElt b x then [] else positionsIn b x

/-- Running best block of `SequenceMatcher.find_longest_match`. -/
structure FlmBest where
  besti : Nat
  bestj : Nat
  bestsize : Nat
deriving DecidableEq

/-- Inner `for j in b2j.get(a[i])` loop of `find_longest_match`: `continue` on
`j < blo`, `break` on `j >= bhi`, otherwise extend the diagonal run ending at
`(i, j)` (`k = j2len.get(j-1, 0) + 1`) and keep the first strictly-longer block.
Dictionaries are modelled as total functions defaulting to `0`. -/
def flmInner (j2len : Nat → Nat) (i blo bhi : Nat) :
    List Nat → (Nat → Nat) → FlmBest → ((Nat → Nat) × FlmBest)
  | [], newj2len, best => (newj2len, best)
  | j :: js, newj2len, best =>
    if j < blo then flmInner j2len i blo bhi js newj2len best
    else if bhi ≤ j then (newj2len, best)
    else
      let k := (if j = 0 then 0 else j2len (j - 1)) + 1
      let newj2len' := fun x => if x = j then k else newj2len x
      let best' := if best.bestsize < k then FlmBest.mk (i + 1 - k) (j + 1 - k) k else best
      flmInner j2len i blo bhi js newj2len' best'

/-- Outer `for i in range(alo, ahi)` loop of `find_longest_match`. -/
def flmOuter (a b : PyStr) (blo bhi : Nat) :
    List Nat → (Nat → Nat) → FlmBest → FlmBest
  | [], _, best => best
  | i :: rest, j2len, best =>
    let r := flmInner j2len i blo bhi (b2j b (a.getD i 0)) (fun _ => 0) best
    flmOuter a b blo bhi rest r.1 r.2

/-- First extension loop of `find_longest_match`: grow the block leftwards
while the adjacent elements match (`bjunk` is empty with `isjunk=None`,
so the junk tests vanish and the junk-only extension loops never fire). -/
def flmExtendFrontF (a b : PyStr) (alo blo : Nat) : Nat → FlmBest → FlmBest
  | 0, best => best
  | f + 1, best =>
    if alo < best.besti ∧ blo < best.bestj ∧
        a.getD (best.besti - 1) 0 = b.getD (best.bestj - 1) 0 then
      flmExtendFrontF a b alo blo f ⟨best.besti - 1, best.bestj - 1, best.bestsize + 1⟩
    else best

/-- The front extension loop with sufficient fuel (`besti` strictly decreases). -/
def flmExtendFront (a b : PyStr) (alo blo : Nat) (best : FlmBest) : FlmBest :=
  flmExtendFrontF a b alo blo (best.besti + 1) best

/-- Second extension loop of `find_longest_match`: grow the block rightwards. -/
def flmExtendBackF (a b : PyStr) (ahi bhi : Nat) : Nat → FlmBest → FlmBest
  | 0, best => best
  | f + 1, best =>
    if best.besti + best.bestsize < ahi ∧ best.bestj + best.bestsize < bhi ∧
        a.getD (best.besti + best.bestsize) 0 = b.getD (best.bestj + best.bestsize) 0 then
      flmExtendBackF a b ahi bhi f ⟨best.besti, best.bestj, best.bestsize + 1⟩
    else best

/-- The back extension loop with sufficient fuel (`bestsize` is bounded by `ahi`). -/
def flmExtendBack (a b : PyStr) (ahi bhi : Nat) (best : FlmBest) : FlmBest :=
  flmExtendBackF a b ahi bhi (ahi + 1) best

/-- `SequenceMatcher.find_longest_match(alo, ahi, blo, bhi)`. -/
def findLongestMatch (a b : PyStr) (alo ahi blo bhi : Nat) : FlmBest :=
  let best := flmOuter a b blo bhi (List.range' alo (ahi - alo)) (fun _ => 0) ⟨alo, blo, 0⟩
  flmExtendBack a b ahi bhi (flmExtendFront a b alo blo best)

/-- Total size of the matching blocks of `get_matching_blocks`, computed by the
standard divide-and-conquer around each longest match.  The fuel bounds the
recursion depth; `a.length + b.length + 1` is always sufficient because each
recursive call strictly shrinks the interval pair. -/
def matchSumFuel (a b : PyStr) : Nat → Nat → Nat → Nat → Nat → Nat
  | 0, _, _, _, _ => 0
  | fuel + 1, alo, ahi, blo, bhi =>
    let m := findLongestMatch a b alo ahi blo bhi
    if m.bestsize = 0 then 0
    else
      matchSumFuel a b fuel alo m.besti blo m.bestj + m.bestsize +
        matchSumFuel a b fuel (m.besti + m.bestsize) ahi (m.bestj + m.bestsize) bhi

/-- `sum(size for _, _, size in get_matching_blocks())` over the full strings. -/
def seqMatches (a b : PyStr) : Nat :=
  matchSumFuel a b (a.length + b.length + 1) 0 a.length 0 b.length

/-- `SequenceMatcher(None, a, b).ratio() = 2.0 * M / T`, modelled exactly in `ℚ`. -/
def seqScore (a b : PyStr) : ℚ :=
  2 * (seqMatches a b : ℚ) / ((a.length : ℚ) + (b.length : ℚ))

/-- `TriggerMatcher._calculate_similarity` (`teams_integration.py` lines 129-167):
empty-input guard, normalization, empty-normalization guard, exact-match fast
path returning `1.0`, else `0.45 * seq_ratio + 0.55 * jaccard`. -/
def calcSimilarity (inputText dbText : PyStr) : ℚ :=
  if inputText = [] ∨ dbText = [] then 0
  else
    let ni := normalizeText inputText
    let nd := normalizeText dbText
    if ni = [] ∨ nd = [] then 0
    else if ni = nd then 1
    else seqScore ni nd * (9 / 20) + jaccardOfNorm ni nd * (11 / 20)

/-- UTF-8 encoding of a single codepoint (`str.encode('utf-8')`). -/
def utf8Char (c : Nat) : List Nat :=
  if c < 128 then [c]
  else if c < 2048 then [192 + c / 64, 128 + c % 64]
  else if c < 65536 then [224 + c / 4096, 128 + (c / 64) % 64, 128 + c % 64]
  else [240 + c / 262144, 128 + (c / 4096) % 64, 128 + (c / 64) % 64, 128 + c % 64]

/-- UTF-8 encoding of a Python string to bytes. -/
def utf8Encode (s : PyStr) : List Nat := (s.map utf8Char).flatten

/-- Modulus for 32-bit words in the SHA-256 compression. -/
def M32 : Nat := 4294967296

/-- 32-bit right rotation. -/
def rotr32 (n x : Nat) : Nat := ((x >>> n) ||| (x <<< (32 - n))) % M32

/-- SHA-256 `Ch(x, y, z)`; bitwise NOT is XOR with the all-ones word. -/
def shaCh (x y z : Nat) : Nat := (x &&& y) ^^^ (((M32 - 1) ^^^ x) &&& z)

/-- SHA-256 `Maj(x, y, z)`. -/
def shaMaj (x y z : Nat) : Nat := (x &&& y) ^^^ (x &&& z) ^^^ (y &&& z)

/-- SHA-256 `Σ0`. -/
def bigSigma0 (x : Nat) : Nat := rotr32 2 x ^^^ rotr32 13 x ^^^ rotr32 22 x

/-- SHA-256 `Σ1`. -/
def bigSigma1 (x : Nat) : Nat := rotr32 6 x ^^^ rotr32 11 x ^^^ rotr32 25 x

/-- SHA-256 `σ0`. -/
def smallSigma0 (x : Nat) : Nat := rotr32 7 x ^^^ rotr32 18 x ^^^ (x >>> 3)

/-- SHA-256 `σ1`. -/
def smallSigma1 (x : Nat) : Nat := rotr32 17 x ^^^ rotr32 19 x ^^^ (x >>> 10)

/-- The 64 SHA-256 round constants. -/
def shaK : List Nat :=
  [1116352408, 1899447441, 3049323471, 3921009573, 961987163, 1508970993,
   2453635748, 2870763221, 3624381080, 310598401, 607225278, 1426881987,
   1925078388, 2162078206, 2614888103, 3248222580, 3835390401, 4022224774,
   264347078, 604807628, 770255983, 1249150122, 1555081692, 1996064986,
   2554220882, 2821834349, 2952996808, 3210313671, 3336571891, 3584528711,
   113926993, 338241895, 666307205, 773529912, 1294757372, 1396182291,
   1695183700, 1986661051, 2177026350, 2456956037, 2730485921, 2820302411,
   3259730800, 3345764771, 3516065817, 3600352804, 4094571909, 275423344,
   430227734, 506948616, 659060556, 883997877, 958139571, 1322822218,
   1537002063, 1747873779, 1955562222, 2024104815, 2227730452, 2361852424,
   2428436474, 2756734187, 3204031479, 3329325298]

/-- SHA-256 working state (eight 32-bit words). -/
structure Sha8 where
  a : Nat
  b : Nat
  c : Nat
  d : Nat
  e : Nat
  f : Nat
  g : Nat
  h : Nat
deriving DecidableEq

/-- SHA-256 initial hash value. -/
def shaH0 : Sha8 :=
  ⟨1779033703, 3144134277, 1013904242, 2773480762,
   1359893119, 2600822924, 528734635, 1541459225⟩

/-- One SHA-256 round with constant-and-schedule pair `kw`. -/
def shaRound (s : Sha8) (kw : Nat × Nat) : Sha8 :=
  let t1 := (s.h + bigSigma1 s.e + shaCh s.e s.f s.g + kw.1 + kw.2) % M32
  let t2 := (bigSigma0 s.a + shaMaj s.a s.b s.c) % M32
  ⟨(t1 + t2) % M32, s.a, s.b, s.c, (s.d + t1) % M32, s.e, s.f, s.g⟩

/-- Pack bytes into big-endian 32-bit words. -/
def toWords32 : List Nat → List Nat
  | b0 :: b1 :: b2 :: b3 :: rest =>
    ((((b0 <<< 8) ||| b1) <<< 8 ||| b2) <<< 8 ||| b3) :: toWords32 rest
  | _ => []

/-- Extend the 16-word schedule by `n` more words. -/
def extendW : Nat → List Nat → List Nat
  | 0, w => w
  | n + 1, w =>
    let i := w.length
    let nw := (w.getD (i - 16) 0 + smallSigma0 (w.getD (i - 15) 0) +
               w.getD (i - 7) 0 + smallSigma1 (w.getD (i - 2) 0)) % M32
    extendW n (w ++ [nw])

/-- SHA-256 compression of one 64-byte block. -/
def shaCompress (h : Sha8) (block : List Nat) : Sha8 :=
  let w := extendW 48 (toWords32 block)
  let s := (shaK.zip w).foldl shaRound h
  ⟨(h.a + s.a) % M32, (h.b + s.b) % M32, (h.c + s.c) % M32, (h.d + s.d) % M32,
   (h.e + s.e) % M32, (h.f + s.f) % M32, (h.g + s.g) % M32, (h.h + s.h) % M32⟩

/-- Big-endian 8-byte encoding of the bit length. -/
def be64 (n : Nat) : List Nat :=
  (List.range 8).map (fun i => (n >>> (8 * (7 - i))) % 256)

/-- SHA-256 padding: `0x80`, zeros to 56 mod 64, then the 64-bit bit length. -/
def padMessage (m : List Nat) : List Nat :=
  let n := m.length
  let k := (119 - n % 64) % 64
  m ++ 128 :: (List.replicate k 0 ++ be64 (8 * n))

/-- Split a byte list into its 64-byte blocks (the padded message length is
always a positive multiple of 64). -/
def chunks64 (l : List Nat) : List (List Nat) :=
  (List.range (l.length / 64)).map (fun i => (l.drop (64 * i)).take 64)

/-- Full SHA-256 over a byte list, as the final eight-word state. -/
def sha256Words (m : List Nat) : Sha8 :=
  (chunks64 (padMessage m)).foldl shaCompress shaH0

/-- Lowercase hex digit codepoint for a nibble. -/
def hexDigit (n : Nat) : Nat := if n < 10 then 48 + n else 87 + n

/-- Eight lowercase hex digits of one 32-bit word. -/
def hex8 (x : Nat) : PyStr :=
  (List.range 8).map (fun i => hexDigit ((x >>> (4 * (7 - i))) % 16))

/-- `hashlib.sha256(bytes).hexdigest()` over a byte list. -/
def sha256hexBytes (m : List Nat) : PyStr :=
  let s := sha256Words m
  hex8 s.a ++ hex8 s.b ++ hex8 s.c ++ hex8 s.d ++
    hex8 s.e ++ hex8 s.f ++ hex8 s.g ++ hex8 s.h

/-- `hashlib.sha256(text.encode('utf-8')).hexdigest()` over a Python string. -/
def sha256hex (s : PyStr) : PyStr := sha256hexBytes (utf8Encode s)

/-- Python `datetime` with an optional fixed timezone offset (minutes). -/
structure PyDateTime where
  year : Nat
  month : Nat
  day : Nat
  hour : Nat
  minute : Nat
  second : Nat
  microsecond : Nat
  tzOffsetMinutes : Option Int
deriving DecidableEq

/-- Decimal digits of a natural number as codepoints. -/
def natDec (n : Nat) : PyStr := (Nat.toDigits 10 n).map Char.toNat

/-- Zero-padded decimal rendering of width `w`. -/
def padNum (w n : Nat) : PyStr := List.replicate (w - (natDec n).length) 48 ++ natDec n

/-- Python `datetime.isoformat()`: `YYYY-MM-DDTHH:MM:SS`, microseconds appended
only when non-zero, and a `+HH:MM`/`-HH:MM` suffix for aware datetimes. -/
def isoOfDateTime (d : PyDateTime) : PyStr :=
  padNum 4 d.year ++ [45] ++ padNum 2 d.month ++ [45] ++ padNum 2 d.day ++ [84] ++
  padNum 2 d.hour ++ [58] ++ padNum 2 d.minute ++ [58] ++ padNum 2 d.second ++
  (if d.microsecond = 0 then [] else [46] ++ padNum 6 d.microsecond) ++
  (match d.tzOffsetMinutes with
   | none => []
   | some off =>
     (if off < 0 then [45] else [43]) ++
       padNum 2 (off.natAbs / 60) ++ [58] ++ padNum 2 (off.natAbs % 60))

/-- `generate_email_id`'s timezone normalization: a naive datetime is replaced
with the same clock time marked UTC (`received_time.replace(tzinfo=timezone.utc)`). -/
def tzNormalizeUtc (d : PyDateTime) : PyDateTime :=
  match d.tzOffsetMinutes with
  | none => { d with tzOffsetMinutes := some 0 }
  | some _ => d

/-- `generate_email_id(subject, received_time)` (`db_schema2.py` lines 59-79 and
the identical copy in `scheduler.py`): SHA-256 of `f"{subject}|{timestamp}"`
where `timestamp` is the isoformat of the timezone-normalized received time. -/
def generate_email_id (subject : PyStr) (receivedTime : PyDateTime) : PyStr :=
  sha256hex (subject ++ [124] ++ isoOfDateTime (tzNormalizeUtc receivedTime))

/-- The characters rejected by `sanitize_filename` in `scheduler.outlook_job`:
`\ / : * ? " < > |`. -/
def invalidFileChars : PyStr := [92, 47, 58, 42, 63, 34, 60, 62, 124]

/-- `sanitize_filename(name)`: `re.sub(r'[\\/:*?"<>|]', '_', name)`. -/
def sanitize_filename (name : PyStr) : PyStr :=
  name.map (fun c => if c ∈ invalidFileChars then 95 else c)

/-- The `email_id` actually persisted by the ingester
(`scheduler.py` lines 345-348): the subject is sanitized for use as a file
name *before* being hashed. -/
def outlookPersistedEmailId (subject : PyStr) (received : PyDateTime) : PyStr :=
  generate_email_id (sanitize_filename subject) received

/-- Spec-side formula for comparison, following the spec's words (§3, §8):
`email_id(m) = SHA256(m.subject || "|" || m.received_at.iso8601())`, computed
from the message's original subject string. -/
def specEmailId (subject : PyStr) (received : PyDateTime) : PyStr :=
  sha256hex (subject ++ [124] ++ isoOfDateTime received)

/-- Retry bound shared by all stage consumers (`MAX_RETRIES = 5`). -/
def MAX_RETRIES : Nat := 5

/-- What a consumer does with a failed message: republish a copy with an
incremented `x-retries` header, or nack to the dead-letter exchange with an
`x-error` header carrying the exception message. -/
inductive RetryAction where
  | republish (newXRetries : Nat)
  | deadLetter (xError : PyStr)
deriving DecidableEq

/-- The `except` handler shared by `consumer.py` (lines 251-290) and
`consumer_summarization.py` (lines 151-192): read `x-retries` (default 0); if
`retries < MAX_RETRIES`, nack without requeue and republish with
`x-retries = retries + 1`; otherwise nack without requeue and publish to the
DLX with header `x-error = str(e)`. -/
def handleConsumerFailure (xRetries : Option Nat) (errMsg : PyStr) : RetryAction :=
  let retries := xRetries.getD 0
  if retries < MAX_RETRIES then RetryAction.republish (retries + 1)
  else RetryAction.deadLetter errMsg

/-- Number of republishes a message that fails on every delivery goes through,
starting from retry header `r`, before the handler dead-letters it. -/
def countRepublishesF : Nat → Nat → Nat
  | 0, _ => 0
  | f + 1, r => if r < MAX_RETRIES then countRepublishesF f (r + 1) + 1 else 0

/-- Republish count for a fresh message (no `x-retries` header) that fails on
every delivery. -/
def republishesUntilDLQ : Nat := countRepublishesF (MAX_RETRIES + 1) 0

/-- `MaintenanceStatus` enum (`db_schema2.py`). -/
inductive MaintStatus where
  | scheduled
  | ongoing
  | completed
deriving DecidableEq

/-- One `maintenance_windows` row; times are epoch seconds, `status` is the
stored enum column. -/
structure MaintenanceRow where
  serverName : Option PyStr
  startDatetime : Int
  endDatetime : Int
  status : MaintStatus
deriving DecidableEq

/-- One `parent_child_relationships` row. -/
structure ParentChildRow where
  parent : PyStr
  child : PyStr
deriving DecidableEq

/-- The check set of `is_in_maintenance`: the machine itself plus the first
parent found in `parent_child_relationships`. -/
def machinesToCheck (rels : List ParentChildRow) (machine : PyStr) : List PyStr :=
  machine ::
    (match rels.find? (fun pc => pc.child == machine) with
     | some pc => [pc.parent]
     | none => [])

/-- `MaintenanceWindowService.is_in_maintenance` (`mentenance_check.py` lines
18-55): true iff some maintenance row has `server_name` in the check set and
*stored* `status == 'ONGOING'`.  The SQL filter runs against the stored column
value; the load-time status recomputation does not affect it. -/
def is_in_maintenance (rows : List MaintenanceRow) (rels : List ParentChildRow)
    (machine : PyStr) : Bool :=
  let check := machinesToCheck rels machine
  decide ((rows.filter (fun r =>
    (match r.serverName with
     | some n => check.contains n
     | none => false) && decide (r.status = MaintStatus.ongoing))).length ≠ 0)

/-- `update_maintenance_status` (`db_schema2.py` lines 403-415), the load-event
recomputation.  The guard `target.status == MaintenanceStatus.COMPLETED.value`
compares an enum member against the string `"Completed"` and is never true for
a row loaded from the database, so no early return occurs. -/
def update_maintenance_status (r : MaintenanceRow) (now : Int) : MaintenanceRow :=
  if r.startDatetime ≤ now ∧ r.endDatetime ≥ now then { r with status := MaintStatus.ongoing }
  else if r.endDatetime < now then { r with status := MaintStatus.completed }
  else if r.startDatetime > now then { r with status := MaintStatus.scheduled }
  else r

/-- The fetch-window floor computed by `CronJobScheduler.outlook_job`
(`scheduler.py` lines 279-299): the `try` block reads the newest JobTable row's
`last_run_time` but then unconditionally overwrites the variable with
`datetime.now() - timedelta(hours=7)` (line 291); the `except` block uses
`now - 8 hours`.  Times are epoch seconds. -/
def outlookWindowFloor (lastRunRead : Option Int) (now : Int) : Int :=
  match lastRunRead with
  | some lastRunTime =>
    let _lastRun := lastRunTime
    now - 7 * 3600
  | none => now - 8 * 3600

/-- The Outlook restriction `[ReceivedTime] > floor` (`scheduler.py` line 301):
keep the messages received strictly after the floor. -/
def restrictReceivedAfter (floor : Int) (receivedTimes : List Int) : List Int :=
  receivedTimes.filter (fun t => decide (floor < t))

/-- The Jira statuses treated as "still open" by `JiraIntegration.is_ticket_open`
(`jira_integration.py` lines 287-296). -/
def openStatuses : List PyStr :=
  [pyOfString "open", pyOfString "in progress", pyOfString "to do", pyOfString "new",
   pyOfString "reopened", pyOfString "pending", pyOfString "waiting", pyOfString "in review"]

/-- `JiraIntegration.is_ticket_open` (`jira_integration.py` lines 252-303).
`statusOf` is the tracker oracle (`get_ticket_status`): `none` models every
failure to determine the status, in which case the ticket is treated as
closed (the fail-open default). -/
def is_ticket_open (statusOf : PyStr → Option PyStr) (ticketId : PyStr) : Bool :=
  match statusOf ticketId with
  | none => false
  | some st => openStatuses.contains (lowerStr st)

/-- A `segregated_email` row as seen by the actioner's join. -/
structure SegEntry where
  email_id : PyStr
  trigger_name : PyStr
  resource_name : PyStr
  inserted_at : Int
deriving DecidableEq

/-- A `jira_table` row as seen by the actioner's join. -/
structure JiraEntryRow where
  email_id : PyStr
  jiraticket_id : Option PyStr
deriving DecidableEq

/-- The inner join of `segregated_email` with `jira_table` on `email_id`. -/
def joinSegJira (segs : List SegEntry) (jiras : List JiraEntryRow) :
    List (SegEntry × JiraEntryRow) :=
  (segs.map (fun s =>
    (jiras.filter (fun j => j.email_id == s.email_id)).map (fun j => (s, j)))).flatten

/-- `ORDER BY segregated_email.inserted_at DESC ... .first()`: the row with the
greatest `inserted_at` (first listed on ties). -/
def mostRecentBySegInserted (ms : List (SegEntry × JiraEntryRow)) :
    Option (SegEntry × JiraEntryRow) :=
  ms.foldl (fun acc p =>
    match acc with
    | none => some p
    | some q => if q.1.inserted_at < p.1.inserted_at then some p else some q) none

/-- `JiraIntegration.find_previous_jira_ticket` (`jira_integration.py` lines
305-403): join, filter on same trigger and resource, exclude the current email,
require a non-null ticket id, take the most recent. -/
def find_previous_jira_ticket (segs : List SegEntry) (jiras : List JiraEntryRow)
    (triggerName resourceName currentEmailId : PyStr) : Option PyStr :=
  let ms := (joinSegJira segs jiras).filter (fun p =>
    p.1.trigger_name == triggerName && p.1.resource_name == resourceName &&
    !(p.1.email_id == currentEmailId) && !(p.2.jiraticket_id == none))
  (mostRecentBySegInserted ms).bind (fun p => p.2.jiraticket_id)

/-- The same lookup with its `except` clause (`jira_integration.py` lines
395-398): any database error yields `None`, i.e. "no prior ticket". -/
def findPreviousSafe (dbOk : Bool) (segs : List SegEntry) (jiras : List JiraEntryRow)
    (triggerName resourceName currentEmailId : PyStr) : Option PyStr :=
  if dbOk then find_previous_jira_ticket segs jiras triggerName resourceName currentEmailId
  else none

/-- `JiraIntegration.should_create_ticket` (`jira_integration.py` lines 405-468):
`(True, None)` when no prior ticket or the prior ticket is closed,
`(False, prior)` when the prior ticket is still open. -/
def should_create_ticket (dbOk : Bool) (statusOf : PyStr → Option PyStr)
    (segs : List SegEntry) (jiras : List JiraEntryRow)
    (triggerName resourceName currentEmailId : PyStr) : Bool × Option PyStr :=
  match findPreviousSafe dbOk segs jiras triggerName resourceName currentEmailId with
  | none => (true, none)
  | some prev => if is_ticket_open statusOf prev then (false, some prev) else (true, none)

/-- The `email_data` dict consumed by `create_ticket_sync`; absent keys are
`none` (Python `dict.get`).  The `timestamp` field is modelled already parsed
to epoch seconds (its `fromisoformat` round-trip is not load-bearing here). -/
structure ActionEmailData where
  email_id : Option PyStr
  trigger_name : Option PyStr
  resource_name : Option PyStr
  subject : Option PyStr
  body : Option PyStr
  sender : Option PyStr
  generated_summary : Option PyStr
  priority : Option PyStr
  path : Option PyStr
  timestampParsed : Option Int
deriving DecidableEq

/-- A `duplicate_emails` row as inserted by the actioner. -/
structure DuplicateEmailRow where
  email_id : PyStr
  duplicate_email_id : PyStr
  subject : Option PyStr
  body : Option PyStr
  sender : Option PyStr
  received_at : Int
deriving DecidableEq

/-- Result of `create_ticket_sync`: skipped duplicates return the tuple
`(None, None, None, None)`; successful creation returns the new ticket key. -/
inductive TicketOutcome where
  | skipped
  | created (key : PyStr)
deriving DecidableEq

/-- A created tracker ticket (fields passed to `jira_client.create_issue`). -/
structure CreatedTicket where
  key : PyStr
  summaryText : PyStr
  description : PyStr
  priorityName : PyStr
deriving DecidableEq

/-- `JiraIntegration._convert_priority_to_jira` (`jira_integration.py` lines
509-519): `mapping.get(priority, "Medium")`. -/
def convert_priority_to_jira (p : PyStr) : PyStr :=
  if p = pyOfString "P1" then pyOfString "Highest"
  else if p = pyOfString "P2" then pyOfString "High"
  else if p = pyOfString "P3" then pyOfString "Medium"
  else if p = pyOfString "Informational" then pyOfString "Low"
  else if p = pyOfString "NA" then pyOfString "Lowest"
  else pyOfString "Medium"

/-- Observable effects of one `create_ticket_sync` call. -/
structure ActionEffects where
  outcome : TicketOutcome
  dupInserted : Option DuplicateEmailRow
  ticketCreated : Option CreatedTicket
deriving DecidableEq

/-- `JiraIntegration.create_ticket_sync` (`jira_integration.py` lines 718-838),
duplicate-check half plus ticket creation.  `now` is `datetime.now()` at the
duplicate-id computation, `nowEpoch` the same instant on the epoch timeline,
`newKey` the ticket key the tracker assigns on creation.  On skip, the
DuplicateEmail row stores the *current* email's id in `email_id` and a fresh
SHA-256 of `f"{email_id}_{now.isoformat()}"` in `duplicate_email_id`. -/
def create_ticket_sync (d : ActionEmailData) (dbOk : Bool)
    (segs : List SegEntry) (jiras : List JiraEntryRow)
    (statusOf : PyStr → Option PyStr) (now : PyDateTime) (nowEpoch : Int)
    (newKey : PyStr) : ActionEffects :=
  let machineName := d.resource_name.getD (pyOfString "Unknown")
  let triggerName := d.trigger_name.getD []
  let emailId := d.email_id.getD []
  let sc := should_create_ticket dbOk statusOf segs jiras triggerName machineName emailId
  if sc.1 = false then
    let uniqueString := emailId ++ [95] ++ isoOfDateTime now
    let duplicateId := sha256hex uniqueString
    { outcome := TicketOutcome.skipped
      dupInserted := some
        { email_id := emailId
          duplicate_email_id := duplicateId
          subject := d.subject
          body := d.body
          sender := d.sender
          received_at := d.timestampParsed.getD nowEpoch }
      ticketCreated := none }
  else
    { outcome := TicketOutcome.created newKey
      dupInserted := none
      ticketCreated := some
        { key := newKey
          summaryText := triggerName ++ pyOfString " - " ++ machineName
          description := d.generated_summary.getD []
          priorityName := convert_priority_to_jira (d.priority.getD (pyOfString "Medium")) } }

/-- Queue-name settings (`config.py` lines 58-63, environment defaults). -/
def classQueueSetting : PyStr := pyOfString "my_class_queue"

/-- `settings.SUMM_QUEUE_NAME` default — the queue the Summarizer consumes
(`consumer_summarization.py` line 218). -/
def summQueueSetting : PyStr := pyOfString "my_summ_queue"

/-- `settings.JIRA_QUEUE_NAME` default. -/
def jiraQueueSetting : PyStr := pyOfString "my_jira_queue"

/-- The queue the classifier publishes to: `consumer.py` line 32 binds its local
`SUMM_QUEUE_NAME` to `settings.JIRA_QUEUE_NAME`. -/
def classifierPublishQueue : PyStr := jiraQueueSetting

/-- The queue the Summarizer consumes from. -/
def summarizerConsumeQueue : PyStr := summQueueSetting

/-- Match one regex literal at the head of the input. -/
def matchLit (lit l : PyStr) : Option PyStr :=
  if lit.isPrefixOf l then some (l.drop lit.length) else none

/-- Match `\s+` at the head of the input (greedy, at least one). -/
def matchSpaces1 : PyStr → Option PyStr
  | [] => none
  | c :: rest => if isPySpace c then some (rest.dropWhile isPySpace) else none

/-- Match `machine\s+shut\s*down\s+gracefully` at the head of `l`
(the input is pre-lowered, so `re.IGNORECASE` reduces to literal matching). -/
def gracefulAt (l : PyStr) : Bool :=
  (((((((matchLit (pyOfString "machine") l).bind matchSpaces1).bind
    (matchLit (pyOfString "shut"))).map (fun r => r.dropWhile isPySpace)).bind
    (matchLit (pyOfString "down"))).bind matchSpaces1).bind
    (matchLit (pyOfString "gracefully"))).isSome

/-- `re.search`: try the pattern at every start position. -/
def gracefulSearchAux : PyStr → Bool
  | [] => false
  | c :: rest => gracefulAt (c :: rest) || gracefulSearchAux rest

/-- `graceful_pattern.search(combined_text)` (`consumer.py` lines 111-113):
pattern `machine\s+shut\s*down\s+gracefully` with `re.IGNORECASE`. -/
def gracefulShutdownMatch (s : PyStr) : Bool := gracefulSearchAux (lowerStr s)

/-- One `segregated_email` row (columns actually mapped by the ORM model). -/
structure SegRow where
  priority : PyStr
  type : PyStr
  resource_name : PyStr
  trigger_name : PyStr
  status : Bool
  inserted_at : Int
deriving DecidableEq

/-- One `summary_table` row. -/
structure SummaryRow where
  summary : PyStr
  status : Bool
deriving DecidableEq

/-- The database state touched by the classifier stage. -/
structure PipelineDb where
  segregated : List (PyStr × SegRow)
  summaries : List (PyStr × SummaryRow)
  duplicates : List DuplicateEmailRow
  rawEmailIds : List PyStr
deriving DecidableEq

/-- `db.query(SegregatedEmail).filter(email_id == ...).first()`. -/
def segFind (db : PipelineDb) (emailId : PyStr) : Option SegRow :=
  (db.segregated.find? (fun p => p.1 == emailId)).map Prod.snd

/-- `db.query(SummaryTable).filter(email_id == ...).first()`. -/
def sumFind (db : PipelineDb) (emailId : PyStr) : Option SummaryRow :=
  (db.summaries.find? (fun p => p.1 == emailId)).map Prod.snd

/-- The partial dict passed to `insert_or_update_segregation`; keys absent from
the Python dict are `none`. -/
structure SegData where
  priority : Option PyStr
  type : Option PyStr
  resource_name : Option PyStr
  trigger_name : Option PyStr
  status : Option Bool
deriving DecidableEq

/-- Field-wise `setattr` loop of the update branch, followed by
`existing.status = data.get('status', existing.status)`. -/
def applySegData (r : SegRow) (d : SegData) : SegRow :=
  { r with
    priority := d.priority.getD r.priority
    type := d.type.getD r.type
    resource_name := d.resource_name.getD r.resource_name
    trigger_name := d.trigger_name.getD r.trigger_name
    status := d.status.getD r.status }

/-- `insert_or_update_segregation` (`db_functions.py` lines 259-290): update the
existing row field-wise, or insert a new row — the insert branch reads
`data['priority']` etc. (KeyError when absent) and always sets `status=False`. -/
def insert_or_update_segregation (db : PipelineDb) (emailId : PyStr) (d : SegData)
    (now : Int) : Except PyStr PipelineDb :=
  match segFind db emailId with
  | some _ =>
    let updated := db.segregated.map
      (fun p => if p.1 == emailId then (p.1, applySegData p.2 d) else p)
    Except.ok { db with segregated := updated }
  | none =>
    match d.priority, d.type, d.resource_name, d.trigger_name with
    | some pr, some ty, some rn, some tn =>
      Except.ok { db with segregated := (emailId, SegRow.mk pr ty rn tn false now) :: db.segregated }
    | _, _, _, _ => Except.error (pyOfString "KeyError")

/-- `insert_or_update_summary` (`db_functions.py` lines 294-316): the update
branch overwrites the text and forces `status = True`; the insert branch uses
the `status` argument. -/
def insert_or_update_summary (db : PipelineDb) (emailId : PyStr) (summaryText : PyStr)
    (status : Bool) : PipelineDb :=
  match sumFind db emailId with
  | some _ =>
    let updated := db.summaries.map
      (fun p => if p.1 == emailId then (p.1, SummaryRow.mk summaryText true) else p)
    { db with summaries := updated }
  | none =>
    { db with summaries := (emailId, SummaryRow.mk summaryText status) :: db.summaries }

/-- `get_email_id_within_hour` (`db_functions.py` lines 384-407): first
segregation row with the same trigger and resource, non-informational priority,
inserted inside the look-back window (`WINDOW` hours, falling back to 1 when
the setting is falsy); on a hit the *current* raw email row is deleted. -/
def get_email_id_within_hour (db : PipelineDb) (targetTrigger targetResource deleteEmail : PyStr)
    (now : Int) (window : Nat) : Option PyStr × PipelineDb :=
  let oneHourAgo := now - (if window ≠ 0 then (window : Int) else 1) * 3600
  match db.segregated.find? (fun p =>
    p.2.trigger_name == targetTrigger && p.2.resource_name == targetResource &&
    decide (p.2.inserted_at ≤ now) && decide (oneHourAgo ≤ p.2.inserted_at) &&
    !(p.2.priority == pyOfString "informational")) with
  | none => (none, db)
  | some p => (some p.1, { db with rawEmailIds := db.rawEmailIds.erase deleteEmail })

/-- A message drawn from Q1 by the classifier. -/
structure ClassMsg where
  email_id : PyStr
  subject : PyStr
  content : PyStr
  sender_address : PyStr
  received_time : PyStr
  msg_path : PyStr
deriving DecidableEq

/-- The parsed first-pass model output (`output1` after `json_repair.loads`). -/
structure SegModelOutput where
  trigger_name : PyStr
  resource_name : PyStr
  priority : PyStr
  type : PyStr
  generated_summary : PyStr
deriving DecidableEq

/-- External-collaborator responses consumed by one classifier run: the two
LLM passes, the server lookup, the maintenance check, and broker health. -/
structure ClassifierOracle where
  out1 : SegModelOutput
  out2IsStr : Bool
  out2RecommendedAction : PyStr
  serverDescription : Option PyStr
  inMaintenance : Bool
  brokerOk : Bool
deriving DecidableEq

/-- The enriched payload published by the classifier (`consumer.py` lines
199-206). -/
structure QueuePayload where
  email_id : PyStr
  body : PyStr
  subject : PyStr
  sender : PyStr
  timestamp : PyStr
  content : PyStr
  generated_summary : PyStr
  recommended_action : PyStr
  path : PyStr
  priority : PyStr
  trigger_name : PyStr
  resource_name : PyStr
  type : PyStr
deriving DecidableEq

/-- Observable effects of one classifier `process_message` run. -/
structure ClassifierEffects where
  db : PipelineDb
  acked : Bool
  enqueued : Option (PyStr × QueuePayload)
deriving DecidableEq

/-- The working `output` dict at the point where both branches converge. -/
structure WorkOutput where
  priority : PyStr
  type : PyStr
  trigger_name : PyStr
  resource_name : PyStr
  generated_summary : PyStr
  recommended_action : Option PyStr
deriving DecidableEq

/-- The literal `"\n Recommended Actions:"` used both to split a stored summary
and to rebuild the enriched summary text. -/
def recActionsMarker : PyStr := pyOfString "\n Recommended Actions:"

/-- Python `str.split(sep)` for a fixed non-empty separator, scanning left to
right over non-overlapping occurrences.  Fuel equal to the input length is
always sufficient (each step consumes at least one codepoint). -/
def pySplitOnF (sep : PyStr) : Nat → PyStr → List PyStr
  | 0, l => [l]
  | _, [] => [[]]
  | f + 1, c :: rest =>
    if sep.isPrefixOf (c :: rest) then
      [] :: pySplitOnF sep f ((c :: rest).drop sep.length)
    else
      match pySplitOnF sep f rest with
      | [] => [[c]]
      | h :: t => (c :: h) :: t

/-- Python `str.split(sep)` (`sep` must be non-empty, as in the source). -/
def pySplitOn (sep l : PyStr) : List PyStr :=
  if sep = [] then [l] else pySplitOnF sep l.length l

/-- Shared tail of the classifier (`consumer.py` lines 185-249): maintenance
check, then the P1/P2 gate; on P1/P2 build the enriched payload concatenating
`generated_summary + "\n Recommended Actions:" + recommended_action`, publish
to the classifier's `SUMM_QUEUE_NAME` (bound to `settings.JIRA_QUEUE_NAME`),
ack, set SegregatedEmail.status and upsert SummaryTable with status True.
A broken broker connection is caught and swallowed: no ack, no enqueue
(`consumer.py` lines 242-246).  A `None` recommended_action makes the
concatenation raise (`TypeError`). -/
def classifierTail (msg : ClassMsg) (orc : ClassifierOracle) (db : PipelineDb)
    (w : WorkOutput) (now : Int) : Except PyStr ClassifierEffects :=
  if orc.inMaintenance then Except.ok ⟨db, true, none⟩
  else if w.priority = pyOfString "P1" ∨ w.priority = pyOfString "P2" then
    match w.recommended_action with
    | none => Except.error (pyOfString "TypeError")
    | some ra =>
      if orc.brokerOk then
        let fullSummary := w.generated_summary ++ recActionsMarker ++ ra
        let payload : QueuePayload :=
          ⟨msg.email_id, msg.content, msg.subject, msg.sender_address, msg.received_time,
           msg.content, fullSummary, ra, msg.msg_path,
           w.priority, w.trigger_name, w.resource_name, w.type⟩
        match insert_or_update_segregation db msg.email_id ⟨none, none, none, none, some true⟩ now with
        | Except.error e => Except.error e
        | Except.ok db1 =>
          let db2 := insert_or_update_summary db1 msg.email_id fullSummary true
          Except.ok ⟨db2, true, some (classifierPublishQueue, payload)⟩
      else Except.ok ⟨db, false, none⟩
  else Except.ok ⟨db, true, none⟩

/-- The classifier's `process_message` (`consumer.py` lines 82-249), as the pure
function of the message, the oracle responses and the database state.  The
`except` retry wrapper is modelled separately by `handleConsumerFailure`; an
`Except.error` here is what that wrapper catches.  The time-window dedup call
(`get_email_id_within_hour`) is commented out in the source (lines 128-145)
and therefore absent. -/
def processClassifierMessage (msg : ClassMsg) (orc : ClassifierOracle)
    (db : PipelineDb) (now : Int) : Except PyStr ClassifierEffects :=
  match segFind db msg.email_id with
  | none =>
    let trigger := pyStrip orc.out1.trigger_name
    let resource := pyStrip orc.out1.resource_name
    if gracefulShutdownMatch (msg.subject ++ (32 :: msg.content)) then
      match insert_or_update_segregation db msg.email_id
        ⟨some (pyOfString "informational"), some (pyOfString "informational"),
         some resource, some trigger, none⟩ now with
      | Except.error e => Except.error e
      | Except.ok db1 =>
        match insert_or_update_segregation db1 msg.email_id ⟨none, none, none, none, some true⟩ now with
        | Except.error e => Except.error e
        | Except.ok db2 => Except.ok ⟨db2, true, none⟩
    else
      let gs :=
        if orc.out2IsStr then
          match orc.serverDescription with
          | some desc =>
            pyOfString "Found description: " ++ desc ++ pyOfString " \n" ++
              pyOfString "generated summary:" ++ orc.out1.generated_summary
          | none => orc.out1.generated_summary
        else orc.out1.generated_summary
      let w : WorkOutput :=
        ⟨orc.out1.priority, orc.out1.type, trigger, resource, gs, some orc.out2RecommendedAction⟩
      match insert_or_update_segregation db msg.email_id
        ⟨some w.priority, some w.type, some resource, some trigger, none⟩ now with
      | Except.error e => Except.error e
      | Except.ok db1 => classifierTail msg orc db1 w now
  | some row =>
    if row.status then Except.ok ⟨db, true, none⟩
    else
      match sumFind db msg.email_id with
      | none => Except.error (pyOfString "AttributeError")
      | some srow =>
        let parts := pySplitOn recActionsMarker srow.summary
        let l : List PyStr :=
          if 1 < parts.length then parts else srow.summary.map (fun c => [c])
        match l.get? 0 with
        | none => Except.error (pyOfString "IndexError")
        | some gs =>
          let w : WorkOutput :=
            ⟨row.priority, row.type, row.trigger_name, row.resource_name, gs, l.get? 1⟩
          classifierTail msg orc db w now

/-- The base summary text the classifier computes on the fresh path before
appending the recommended actions: the server description enrichment applies
when the trigger pass returned a string and the resource is a known server. -/
def classifierBaseSummary (orc : ClassifierOracle) : PyStr :=
  if orc.out2IsStr then
    match orc.serverDescription with
    | some desc =>
      pyOfString "Found description: " ++ desc ++ pyOfString " \n" ++
        pyOfString "generated summary:" ++ orc.out1.generated_summary
    | none => orc.out1.generated_summary
  else orc.out1.generated_summary

/-- The update branch of `insert_or_update_segregation` for the
`{'status': True}` dict: rewrite the matching row's status in place. -/
def segMarkTrue (db : PipelineDb) (emailId : PyStr) : PipelineDb :=
  let updated := db.segregated.map
    (fun p => if p.1 == emailId then (p.1, applySegData p.2 ⟨none, none, none, none, some true⟩) else p)
  { db with segregated := updated }

/-! ## Helper lemmas -/

theorem pyLower_pyLower (c : Nat) : pyLower (pyLower c) = pyLower c := by
  unfold pyLower
  split_ifs with h1 h2 <;> omega

theorem pyLower_fixed_of_mem_lowerStr {c : Nat} {s : PyStr} (h : c ∈ lowerStr s) :
    pyLower c = c := by
  unfold lowerStr at h
  obtain ⟨d, _, rfl⟩ := List.mem_map.mp h
  exact pyLower_pyLower d

theorem stripLinksF_subset {c : Nat} : ∀ (f : Nat) (l : PyStr), c ∈ stripLinksF f l → c ∈ l := by
  intro f
  induction f with
  | zero => intro l h; simpa [stripLinksF] using h
  | succ f ih =>
    intro l h
    match l with
    | [] => simp [stripLinksF] at h
    | a :: rest =>
      rw [stripLinksF] at h
      by_cases hl : isLinkAt (a :: rest)
      · rw [if_pos hl] at h
        have h1 := ih _ h
        have h2 := (List.dropWhile_sublist notSpace).mem h1
        exact (List.drop_subset 12 (a :: rest)) h2
      · rw [if_neg hl] at h
        rcases List.mem_cons.mp h with h1 | h1
        · exact h1 ▸ List.mem_cons_self _ _
        · exact List.mem_cons_of_mem _ (ih _ h1)

theorem stripLinksF_eq_self : ∀ (f : Nat) (l : PyStr), (58 : Nat) ∉ l → stripLinksF f l = l := by
  intro f
  induction f with
  | zero => intro l _; rfl
  | succ f ih =>
    intro l h58
    match l with
    | [] => rfl
    | a :: rest =>
      have hlink : isLinkAt (a :: rest) = false := by
        by_contra hc
        have ht : isLinkAt (a :: rest) = true := by
          cases h : isLinkAt (a :: rest)
          · exact absurd h hc
          · rfl
        have hpre : linkLit.isPrefixOf (a :: rest) = true := by
          unfold isLinkAt at ht
          exact (by simpa using ht : linkLit.isPrefixOf (a :: rest) = true ∧ _).1
        have hsub : linkLit ⊆ a :: rest := (List.isPrefixOf_iff_prefix.mp hpre).subset
        exact h58 (hsub (by decide : (58 : Nat) ∈ linkLit))
      rw [stripLinksF, if_neg (by simp [hlink])]
      have : (58 : Nat) ∉ rest := fun hr => h58 (List.mem_cons_of_mem _ hr)
      rw [ih rest this]

theorem map_eq_self_of_mem {f : Nat → Nat} {l : List Nat} (h : ∀ c ∈ l, f c = c) :
    l.map f = l := by
  rw [List.map_congr_left h]
  exact List.map_id l

theorem punctToSpace_mem {c : Nat} {l : PyStr} (h : c ∈ punctToSpace l) :
    (isWordChar c = true ∨ isPySpace c = true) ∧ (c ∈ l ∨ c = 32) := by
  unfold punctToSpace at h
  obtain ⟨d, hd, hc⟩ := List.mem_map.mp h
  by_cases hw : isWordChar d || isPySpace d
  · rw [if_pos hw] at hc
    subst hc
    exact ⟨by simpa using hw, Or.inl hd⟩
  · rw [if_neg hw] at hc
    subst hc
    exact ⟨Or.inr (by decide), Or.inr rfl⟩

theorem punctToSpace_eq_self {l : PyStr} (h : ∀ c ∈ l, isWordChar c = true ∨ c = 32) :
    punctToSpace l = l := by
  unfold punctToSpace
  apply map_eq_self_of_mem
  intro c hc
  rcases h c hc with hw | h32
  · rw [if_pos (by simp [hw])]
  · subst h32
    rw [if_pos (by decide)]

theorem pySplitAux_sound : ∀ (l acc : PyStr), (∀ c ∈ acc, isPySpace c = false) →
    ∀ t ∈ pySplitAux l acc, t ≠ [] ∧ ∀ c ∈ t, isPySpace c = false := by
  intro l
  induction l with
  | nil =>
    intro acc hacc t ht
    rw [pySplitAux] at ht
    by_cases h : acc = []
    · simp [h] at ht
    · rw [if_neg h] at ht
      simp only [List.mem_singleton] at ht
      subst ht
      refine ⟨by simpa using h, ?_⟩
      intro c hc
      exact hacc c (List.mem_reverse.mp hc)
  | cons a rest ih =>
    intro acc hacc t ht
    rw [pySplitAux] at ht
    by_cases hs : isPySpace a
    · rw [if_pos hs] at ht
      by_cases h : acc = []
      · rw [if_pos h] at ht
        exact ih [] (by simp) t ht
      · rw [if_neg h] at ht
        rcases List.mem_cons.mp ht with h1 | h1
        · subst h1
          refine ⟨by simpa using h, ?_⟩
          intro c hc
          exact hacc c (List.mem_reverse.mp hc)
        · exact ih [] (by simp) t h1
    · rw [if_neg hs] at ht
      refine ih (a :: acc) ?_ t ht
      intro c hc
      rcases List.mem_cons.mp hc with h1 | h1
      · subst h1
        exact Bool.not_eq_true _ ▸ (by simpa using hs)
      · exact hacc c h1

theorem pySplitAux_origin : ∀ (l acc : PyStr) (t : PyStr) (c : Nat),
    t ∈ pySplitAux l acc → c ∈ t → c ∈ l ∨ c ∈ acc := by
  intro l
  induction l with
  | nil =>
    intro acc t c ht hc
    rw [pySplitAux] at ht
    by_cases h : acc = []
    · simp [h] at ht
    · rw [if_neg h] at ht
      simp only [List.mem_singleton] at ht
      subst ht
      exact Or.inr (List.mem_reverse.mp hc)
  | cons a rest ih =>
    intro acc t c ht hc
    rw [pySplitAux] at ht
    by_cases hs : isPySpace a
    · rw [if_pos hs] at ht
      by_cases h : acc = []
      · rw [if_pos h] at ht
        rcases ih [] t c ht hc with h1 | h1
        · exact Or.inl (List.mem_cons_of_mem _ h1)
        · simp at h1
      · rw [if_neg h] at ht
        rcases List.mem_cons.mp ht with h1 | h1
        · subst h1
          exact Or.inr (List.mem_reverse.mp hc)
        · rcases ih [] t c h1 hc with h2 | h2
          · exact Or.inl (List.mem_cons_of_mem _ h2)
          · simp at h2
    · rw [if_neg hs] at ht
      rcases ih (a :: acc) t c ht hc with h1 | h1
      · exact Or.inl (List.mem_cons_of_mem _ h1)
      · rcases List.mem_cons.mp h1 with h2 | h2
        · exact Or.inl (h2 ▸ List.mem_cons_self _ _)
        · exact Or.inr h2

theorem pySplitAux_word : ∀ (w : PyStr), (∀ c ∈ w, isPySpace c = false) →
    ∀ (l acc : PyStr), pySplitAux (w ++ l) acc = pySplitAux l (w.reverse ++ acc) := by
  intro w
  induction w with
  | nil => intro _ l acc; simp
  | cons a w' ih =>
    intro hw l acc
    have ha : isPySpace a = false := hw a (List.mem_cons_self _ _)
    have hw' : ∀ c ∈ w', isPySpace c = false := fun c hc => hw c (List.mem_cons_of_mem _ hc)
    rw [List.cons_append, pySplitAux, if_neg (by simp [ha]), ih hw' l (a :: acc)]
    congr 1
    simp

theorem joinSpace_mem : ∀ (ts : List PyStr) (c : Nat), c ∈ joinSpace ts →
    (∃ t ∈ ts, c ∈ t) ∨ c = 32 := by
  intro ts
  induction ts with
  | nil => intro c hc; simp [joinSpace] at hc
  | cons t ts ih =>
    intro c hc
    match ts with
    | [] =>
      exact Or.inl ⟨t, List.mem_cons_self _ _, by simpa [joinSpace] using hc⟩
    | t' :: ts' =>
      rw [joinSpace] at hc
      rcases List.mem_append.mp hc with h1 | h1
      · exact Or.inl ⟨t, List.mem_cons_self _ _, h1⟩
      · rcases List.mem_cons.mp h1 with h2 | h2
        · exact Or.inr h2
        · rcases ih c h2 with ⟨u, hu, hcu⟩ | h3
          · exact Or.inl ⟨u, List.mem_cons_of_mem _ hu, hcu⟩
          · exact Or.inr h3

theorem pySplit_joinSpace : ∀ (ts : List PyStr),
    (∀ t ∈ ts, t ≠ [] ∧ ∀ c ∈ t, isPySpace c = false) →
    pySplit (joinSpace ts) = ts := by
  intro ts
  induction ts with
  | nil => intro _; rfl
  | cons t ts ih =>
    intro h
    have ht := h t (List.mem_cons_self _ _)
    have hts : ∀ u ∈ ts, u ≠ [] ∧ ∀ c ∈ u, isPySpace c = false :=
      fun u hu => h u (List.mem_cons_of_mem _ hu)
    match ts with
    | [] =>
      show pySplitAux (joinSpace [t]) [] = [t]
      rw [joinSpace]
      have : pySplitAux t [] = pySplitAux (t ++ []) [] := by rw [List.append_nil]
      rw [this, pySplitAux_word t ht.2 [] [], pySplitAux]
      rw [if_neg (by simp [ht.1]), List.append_nil, List.reverse_reverse]
    | t' :: ts' =>
      show pySplitAux (joinSpace (t :: t' :: ts')) [] = t :: t' :: ts'
      rw [joinSpace, pySplitAux_word t ht.2 (32 :: joinSpace (t' :: ts')) [], pySplitAux]
      rw [if_pos (by decide), if_neg (by simp [ht.1]), List.append_nil, List.reverse_reverse]
      exact congrArg (t :: ·) (ih hts)

theorem joinSpace_head : ∀ (ts : List PyStr),
    (∀ t ∈ ts, t ≠ [] ∧ ∀ c ∈ t, isPySpace c = false) → ts ≠ [] →
    ∃ c l', joinSpace ts = c :: l' ∧ isPySpace c = false := by
  intro ts h hne
  match ts with
  | [] => exact absurd rfl hne
  | t :: ts' =>
    have ht := h t (List.mem_cons_self _ _)
    match hte : t with
    | [] => exact absurd rfl (hte ▸ ht.1)
    | c :: t0 =>
      have hc : isPySpace c = false := ht.2 c (List.mem_cons_self _ _)
      match ts' with
      | [] => exact ⟨c, t0, rfl, hc⟩
      | t'' :: ts'' =>
        exact ⟨c, t0 ++ (32 :: joinSpace (t'' :: ts'')), rfl, hc⟩

theorem joinSpace_reverse_head : ∀ (ts : List PyStr),
    (∀ t ∈ ts, t ≠ [] ∧ ∀ c ∈ t, isPySpace c = false) → ts ≠ [] →
    ∃ c l', (joinSpace ts).reverse = c :: l' ∧ isPySpace c = false := by
  intro ts
  induction ts with
  | nil => intro _ hne; exact absurd rfl hne
  | cons t ts ih =>
    intro h _
    have ht := h t (List.mem_cons_self _ _)
    have hts : ∀ u ∈ ts, u ≠ [] ∧ ∀ c ∈ u, isPySpace c = false :=
      fun u hu => h u (List.mem_cons_of_mem _ hu)
    match ts with
    | [] =>
      match hrev : t.reverse with
      | [] => exact absurd (by simpa using hrev) ht.1
      | c :: l' =>
        have hcmem : c ∈ t := List.mem_reverse.mp (hrev ▸ List.mem_cons_self c l')
        exact ⟨c, l', rfl, ht.2 c hcmem⟩
    | t' :: ts' =>
      obtain ⟨c, l', hrev, hc⟩ := ih hts (by simp)
      refine ⟨c, l' ++ [32] ++ t.reverse, ?_, hc⟩
      show (t ++ (32 :: joinSpace (t' :: ts'))).reverse = _
      rw [List.reverse_append, List.reverse_cons, hrev]
      simp

theorem pyStrip_joinSpace (ts : List PyStr)
    (h : ∀ t ∈ ts, t ≠ [] ∧ ∀ c ∈ t, isPySpace c = false) :
    pyStrip (joinSpace ts) = joinSpace ts := by
  match ts with
  | [] => rfl
  | t :: ts' =>
    obtain ⟨c, l', hhead, hc⟩ := joinSpace_head (t :: ts') h (by simp)
    obtain ⟨c', l'', hrev, hc'⟩ := joinSpace_reverse_head (t :: ts') h (by simp)
    unfold pyStrip
    rw [hhead, List.dropWhile_cons, if_neg (by simp [hc]), ← hhead, hrev]
    rw [List.dropWhile_cons, if_neg (by simp [hc']), ← hrev, List.reverse_reverse]

theorem normalizeText_idem (s : PyStr) : normalizeText (normalizeText s) = normalizeText s := by
  by_cases hs : s = []
  · rw [hs]; rfl
  · have hT : normalizeText s = pyStrip (joinSpace (pySplit (punctToSpace (stripLinks (lowerStr s))))) := by
      rw [normalizeText, if_neg hs]
    set T := pySplit (punctToSpace (stripLinks (lowerStr s))) with hTdef
    have htok : ∀ t ∈ T, t ≠ [] ∧ ∀ c ∈ t, isPySpace c = false := by
      intro t ht
      exact pySplitAux_sound _ [] (by simp) t ht
    have hchar : ∀ t ∈ T, ∀ c ∈ t, isWordChar c = true ∧ pyLower c = c := by
      intro t ht c hc
      have hns : isPySpace c = false := (htok t ht).2 c hc
      rcases pySplitAux_origin _ [] t c ht hc with horig | horig
      · obtain ⟨hword, hmem⟩ := punctToSpace_mem horig
        rcases hmem with hmem | h32
        · have hw : isWordChar c = true := by
            rcases hword with hw | hsp
            · exact hw
            · rw [hns] at hsp; exact absurd hsp (by simp)
          exact ⟨hw, pyLower_fixed_of_mem_lowerStr (stripLinksF_subset _ _ hmem)⟩
        · rw [h32] at hns; exact absurd hns (by decide)
      · simp at horig
    have hstrip : pyStrip (joinSpace T) = joinSpace T := pyStrip_joinSpace T htok
    rw [hT, hstrip]
    by_cases hJ : joinSpace T = []
    · rw [hJ]; rfl
    · rw [normalizeText, if_neg hJ]
      have hJchars : ∀ c ∈ joinSpace T, (isWordChar c = true ∧ pyLower c = c) ∨ c = 32 := by
        intro c hc
        rcases joinSpace_mem T c hc with ⟨t, ht, hct⟩ | h32
        · exact Or.inl (hchar t ht c hct)
        · exact Or.inr h32
      have hlower : lowerStr (joinSpace T) = joinSpace T := by
        unfold lowerStr
        apply map_eq_self_of_mem
        intro c hc
        rcases hJchars c hc with ⟨_, hl⟩ | h32
        · exact hl
        · rw [h32]; decide
      have hnocolon : (58 : Nat) ∉ joinSpace T := by
        intro h58
        rcases hJchars 58 h58 with ⟨hw, _⟩ | h32
        · exact absurd hw (by decide)
        · exact absurd h32 (by decide)
      have hpunct : punctToSpace (joinSpace T) = joinSpace T := by
        apply punctToSpace_eq_self
        intro c hc
        rcases hJchars c hc with ⟨hw, _⟩ | h32
        · exact Or.inl hw
        · exact Or.inr h32
      have hlinks : stripLinks (joinSpace T) = joinSpace T :=
        stripLinksF_eq_self (joinSpace T).length (joinSpace T) hnocolon
      rw [hlower, hlinks, hpunct, pySplit_joinSpace T htok, hstrip]

/-! ## Claim C9 -/

/-- C9 (amended): normalizing a trigger name is idempotent;
`similarity(a, a) = 1.0` holds for every string whose *normalized* form is
non-empty (not for every non-empty string); and the Jaccard token component of
the similarity is symmetric (the SequenceMatcher component, and hence the full
similarity, is not — see the counterexample). -/
theorem c9_matcher_algebra :
    (∀ s : PyStr, normalizeText (normalizeText s) = normalizeText s) ∧
    (∀ a : PyStr, a ≠ [] → normalizeText a ≠ [] → calcSimilarity a a = 1) ∧
    (∀ ni nd : PyStr, jaccardOfNorm ni nd = jaccardOfNorm nd ni) := by
  refine ⟨normalizeText_idem, ?_, ?_⟩
  · intro a ha hna
    unfold calcSimilarity
    rw [if_neg (by simp [ha])]
    rw [if_neg (by simp [hna]), if_pos rfl]
  · intro ni nd
    simp only [jaccardOfNorm]
    rw [Finset.union_comm (tokenSet ni) (tokenSet nd),
      Finset.inter_comm (tokenSet ni) (tokenSet nd)]
    by_cases h1 : (tokenSet ni).Nonempty <;> by_cases h2 : (tokenSet nd).Nonempty <;>
      simp [h1, h2]

/-- C9 (witness): the amended statement applied at concrete inputs. -/
theorem c9_matcher_algebra_witness :
    normalizeText (normalizeText (pyOfString "A  b!")) = normalizeText (pyOfString "A  b!") ∧
    calcSimilarity (pyOfString "ab") (pyOfString "ab") = 1 ∧
    jaccardOfNorm (pyOfString "x") (pyOfString "y") = jaccardOfNorm (pyOfString "y") (pyOfString "x") :=
  ⟨c9_matcher_algebra.1 _,
   c9_matcher_algebra.2.1 _ (by decide) (by decide),
   c9_matcher_algebra.2.2 _ _⟩

/-- C9 (counterexample): the claim as stated is false on the code.
`similarity("!", "!") = 0 ≠ 1.0` although `"!"` is non-empty (its
normalization is empty), and the similarity is not symmetric:
`similarity("ab", "bacb") = 0.3` while `similarity("bacb", "ab") = 0.15`
(difflib's `SequenceMatcher.ratio` is order-dependent). -/
theorem c9_cex :
    (pyOfString "!" ≠ ([] : PyStr)) ∧
    calcSimilarity (pyOfString "!") (pyOfString "!") ≠ 1 ∧
    calcSimilarity (pyOfString "ab") (pyOfString "bacb") ≠
      calcSimilarity (pyOfString "bacb") (pyOfString "ab") := by
  refine ⟨by decide, ?_, ?_⟩
  · have h : calcSimilarity (pyOfString "!") (pyOfString "!") = 0 := by
      unfold calcSimilarity
      rw [if_neg (by decide), if_pos (by decide)]
    rw [h]
    norm_num
  · have hni : normalizeText (pyOfString "ab") = pyOfString "ab" := by decide
    have hnd : normalizeText (pyOfString "bacb") = pyOfString "bacb" := by decide
    have e1 : calcSimilarity (pyOfString "ab") (pyOfString "bacb") =
        seqScore (pyOfString "ab") (pyOfString "bacb") * (9 / 20) +
          jaccardOfNorm (pyOfString "ab") (pyOfString "bacb") * (11 / 20) := by
      unfold calcSimilarity
      rw [if_neg (by decide)]
      show (if normalizeText (pyOfString "ab") = [] ∨ normalizeText (pyOfString "bacb") = [] then (0 : ℚ)
        else if normalizeText (pyOfString "ab") = normalizeText (pyOfString "bacb") then 1
        else seqScore (normalizeText (pyOfString "ab")) (normalizeText (pyOfString "bacb")) * (9 / 20) +
          jaccardOfNorm (normalizeText (pyOfString "ab")) (normalizeText (pyOfString "bacb")) * (11 / 20)) = _
      rw [hni, hnd, if_neg (by decide), if_neg (by decide)]
    have e2 : calcSimilarity (pyOfString "bacb") (pyOfString "ab") =
        seqScore (pyOfString "bacb") (pyOfString "ab") * (9 / 20) +
          jaccardOfNorm (pyOfString "bacb") (pyOfString "ab") * (11 / 20) := by
      unfold calcSimilarity
      rw [if_neg (by decide)]
      show (if normalizeText (pyOfString "bacb") = [] ∨ normalizeText (pyOfString "ab") = [] then (0 : ℚ)
        else if normalizeText (pyOfString "bacb") = normalizeText (pyOfString "ab") then 1
        else seqScore (normalizeText (pyOfString "bacb")) (normalizeText (pyOfString "ab")) * (9 / 20) +
          jaccardOfNorm (normalizeText (pyOfString "bacb")) (normalizeText (pyOfString "ab")) * (11 / 20)) = _
      rw [hnd, hni, if_neg (by decide), if_neg (by decide)]
    have hm1 : seqMatches (pyOfString "ab") (pyOfString "bacb") = 2 := by decide
    have hm2 : seqMatches (pyOfString "bacb") (pyOfString "ab") = 1 := by decide
    have hl1 : (pyOfString "ab").length = 2 := by decide
    have hl2 : (pyOfString "bacb").length = 4 := by decide
    have hs1 : seqScore (pyOfString "ab") (pyOfString "bacb") = 2 / 3 := by
      unfold seqScore
      rw [hm1, hl1, hl2]
      norm_num
    have hs2 : seqScore (pyOfString "bacb") (pyOfString "ab") = 1 / 3 := by
      unfold seqScore
      rw [hm2, hl1, hl2]
      norm_num
    have hint : (tokenSet (pyOfString "ab") ∩ tokenSet (pyOfString "bacb")).card = 0 := by decide
    have hint2 : (tokenSet (pyOfString "bacb") ∩ tokenSet (pyOfString "ab")).card = 0 := by decide
    have hj1 : jaccardOfNorm (pyOfString "ab") (pyOfString "bacb") = 0 := by
      simp only [jaccardOfNorm]
      rw [if_pos ⟨by decide, by decide⟩, if_pos (by decide), hint, Nat.cast_zero, zero_div]
    have hj2 : jaccardOfNorm (pyOfString "bacb") (pyOfString "ab") = 0 := by
      simp only [jaccardOfNorm]
      rw [if_pos ⟨by decide, by decide⟩, if_pos (by decide), hint2, Nat.cast_zero, zero_div]
    rw [e1, e2, hs1, hs2, hj1, hj2]
    norm_num

/-! ## Claim C4 -/

/-- C4 (counterexample): a message carrying `x-retries = MAX_RETRIES - 1` that
fails once more is *republished* with `x-retries = MAX_RETRIES`, not
dead-lettered: the handler's guard is `retries < MAX_RETRIES`. -/
theorem c4_cex :
    handleConsumerFailure (some (MAX_RETRIES - 1)) (pyOfString "boom") =
      RetryAction.republish MAX_RETRIES ∧
    RetryAction.republish MAX_RETRIES ≠ RetryAction.deadLetter (pyOfString "boom") := by
  constructor
  · decide
  · decide

/-- C4 (amended): the dead-letter threshold is `x-retries = MAX_RETRIES` (not
`MAX_RETRIES - 1`): a message carrying `x-retries = MAX_RETRIES` that fails is
nacked to the DLX with header `x-error` carrying the exception message, a
message carrying `x-retries = MAX_RETRIES - 1` is republished once more, and a
message that fails on every delivery is republished exactly `MAX_RETRIES`
times before being dead-lettered. -/
theorem c4_retry_protocol :
    (∀ e : PyStr, handleConsumerFailure (some MAX_RETRIES) e = RetryAction.deadLetter e) ∧
    (∀ e : PyStr, handleConsumerFailure (some (MAX_RETRIES - 1)) e =
      RetryAction.republish MAX_RETRIES) ∧
    (∀ e : PyStr, handleConsumerFailure none e = RetryAction.republish 1) ∧
    republishesUntilDLQ = MAX_RETRIES := by
  exact ⟨fun e => rfl, fun e => rfl, fun e => rfl, by decide⟩

/-! ## Claim C6 -/

/-- C6 (counterexample): a window whose stored status is `SCHEDULED` but whose
interval contains the current instant (`start = 0 ≤ now = 50 ≤ end = 100`, so
the computed status is Ongoing) does *not* suppress: `is_in_maintenance`
filters on the stored column value, not on the recomputed status. -/
theorem c6_cex :
    is_in_maintenance [⟨some (pyOfString "m1"), 0, 100, MaintStatus.scheduled⟩] []
      (pyOfString "m1") = false ∧
    (update_maintenance_status ⟨some (pyOfString "m1"), 0, 100, MaintStatus.scheduled⟩ 50).status =
      MaintStatus.ongoing := by
  constructor
  · decide
  · rw [update_maintenance_status, if_pos (by constructor <;> decide)]

/-- C6 (amended): the maintenance check returns true iff the machine or its
first-found parent has a maintenance row whose *stored* status equals
`ONGOING`; the read-time recomputation `update_maintenance_status` does set a
row's status to Ongoing exactly when `start ≤ now ≤ end`, but it does not
affect the SQL filter. -/
theorem c6_maintenance_check :
    (∀ (rows : List MaintenanceRow) (rels : List ParentChildRow) (machine : PyStr),
      is_in_maintenance rows rels machine = true ↔
        ∃ r ∈ rows, (∃ n, r.serverName = some n ∧ n ∈ machinesToCheck rels machine) ∧
          r.status = MaintStatus.ongoing) ∧
    (∀ (r : MaintenanceRow) (now : Int),
      (update_maintenance_status r now).status = MaintStatus.ongoing ↔
        (r.startDatetime ≤ now ∧ now ≤ r.endDatetime)) := by
  constructor
  · intro rows rels machine
    unfold is_in_maintenance
    rw [decide_eq_true_eq]
    rw [Ne, List.length_eq_zero]
    constructor
    · intro h
      obtain ⟨r, hr⟩ := List.exists_mem_of_ne_nil _ h
      have hmem := List.mem_filter.mp hr
      refine ⟨r, hmem.1, ?_⟩
      have hp := hmem.2
      rw [Bool.and_eq_true] at hp
      obtain ⟨hserv, hstat⟩ := hp
      constructor
      · match hsn : r.serverName with
        | none => rw [hsn] at hserv; simp at hserv
        | some n =>
          rw [hsn] at hserv
          exact ⟨n, rfl, by simpa using hserv⟩
      · exact of_decide_eq_true hstat
    · intro ⟨r, hr, ⟨n, hsn, hmem⟩, hstat⟩
      intro hnil
      have hall := List.filter_eq_nil_iff.mp hnil r hr
      apply hall
      simp [hsn, hstat, hmem]
  · intro r now
    unfold update_maintenance_status
    by_cases h1 : r.startDatetime ≤ now ∧ r.endDatetime ≥ now
    · rw [if_pos h1]
      simp only []
      constructor
      · intro _; exact ⟨h1.1, h1.2⟩
      · intro _; trivial
    · rw [if_neg h1]
      by_cases h2 : r.endDatetime < now
      · rw [if_pos h2]
        simp only []
        constructor
        · intro h; cases h
        · intro h; omega
      · rw [if_neg h2]
        rw [if_pos (by omega)]
        simp only []
        constructor
        · intro h; cases h
        · intro h; omega

/-- C6 (witness): the amended characterization applied at a concrete state:
a stored-ONGOING window for the parent machine suppresses the child. -/
theorem c6_maintenance_check_witness :
    (is_in_maintenance [⟨some (pyOfString "cluster1"), 0, 100, MaintStatus.ongoing⟩]
      [⟨pyOfString "cluster1", pyOfString "hostZ"⟩] (pyOfString "hostZ") = true ↔
      ∃ r ∈ [(⟨some (pyOfString "cluster1"), 0, 100, MaintStatus.ongoing⟩ : MaintenanceRow)],
        (∃ n, r.serverName = some n ∧
          n ∈ machinesToCheck [⟨pyOfString "cluster1", pyOfString "hostZ"⟩] (pyOfString "hostZ")) ∧
        r.status = MaintStatus.ongoing) ∧
    ((update_maintenance_status ⟨some (pyOfString "m1"), 0, 100, MaintStatus.scheduled⟩ 50).status =
      MaintStatus.ongoing ↔ ((0 : Int) ≤ 50 ∧ (50 : Int) ≤ 100)) :=
  ⟨c6_maintenance_check.1 _ _ _, c6_maintenance_check.2 _ _⟩

/-! ## Claim C7 -/

/-- C7 (counterexample): with a perfectly readable JobTable row carrying
`last_run_time = 0` and `now = 100000`, the fetch floor is
`100000 - 7*3600 = 74800`, not the stored `0`: line 291 of `scheduler.py`
overwrites the value read from the database. -/
theorem c7_cex :
    outlookWindowFloor (some 0) 100000 = 74800 ∧ (74800 : Int) ≠ 0 := by
  constructor
  · rfl
  · decide

/-- C7 (amended): the fetch-window floor is `now - 7 hours` whenever the
JobTable read succeeds (the stored `last_run_time` is read but discarded) and
`now - 8 hours` when it fails; the mailbox restriction then keeps exactly the
messages received strictly after the floor. -/
theorem c7_window_floor :
    (∀ t now : Int, outlookWindowFloor (some t) now = now - 7 * 3600) ∧
    (∀ now : Int, outlookWindowFloor none now = now - 8 * 3600) ∧
    (∀ (floor : Int) (ts : List Int) (t : Int),
      t ∈ restrictReceivedAfter floor ts ↔ t ∈ ts ∧ floor < t) := by
  refine ⟨fun t now => rfl, fun now => rfl, fun floor ts t => ?_⟩
  simp [restrictReceivedAfter]

/-! ## Claim C10 -/

/-- C10: the cross-ticket dedup fails open.  When the tracker cannot determine
the prior ticket's status (`get_ticket_status` returns `None`),
`is_ticket_open` answers false; when the database lookup for a prior ticket
errors, `find_previous_jira_ticket` returns `None`; in both situations
`should_create_ticket` answers `(True, None)` and `create_ticket_sync`
proceeds to create a new ticket rather than suppressing the alert. -/
theorem c10_fail_open :
    (∀ (statusOf : PyStr → Option PyStr) (t : PyStr),
      statusOf t = none → is_ticket_open statusOf t = false) ∧
    (∀ (segs : List SegEntry) (jiras : List JiraEntryRow) (tn rn id : PyStr),
      findPreviousSafe false segs jiras tn rn id = none) ∧
    (∀ (statusOf : PyStr → Option PyStr) (segs : List SegEntry)
        (jiras : List JiraEntryRow) (tn rn id : PyStr),
      should_create_ticket false statusOf segs jiras tn rn id = (true, none)) ∧
    (∀ (d : ActionEmailData) (segs : List SegEntry) (jiras : List JiraEntryRow)
        (statusOf : PyStr → Option PyStr) (now : PyDateTime) (nowEpoch : Int) (newKey : PyStr),
      (create_ticket_sync d false segs jiras statusOf now nowEpoch newKey).outcome =
        TicketOutcome.created newKey) := by
  refine ⟨?_, fun _ _ _ _ _ => rfl, fun _ _ _ _ _ _ => rfl, fun d _ _ _ _ _ _ => ?_⟩
  · intro statusOf t h
    unfold is_ticket_open
    rw [h]
  · rfl

/-- C10 (witness): the fail-open defaults at concrete inputs. -/
theorem c10_fail_open_witness :
    is_ticket_open (fun _ => none) (pyOfString "MAI-1") = false ∧
    (create_ticket_sync
        ⟨some (pyOfString "B"), some (pyOfString "trig"), some (pyOfString "host"),
         none, none, none, none, some (pyOfString "P1"), none, none⟩
        false [] [] (fun _ => none) ⟨2025, 1, 7, 10, 0, 0, 0, some 0⟩ 0
        (pyOfString "MAI-9")).outcome = TicketOutcome.created (pyOfString "MAI-9") :=
  ⟨c10_fail_open.1 (fun _ => none) (pyOfString "MAI-1") rfl,
   c10_fail_open.2.2.2 _ [] [] (fun _ => none) ⟨2025, 1, 7, 10, 0, 0, 0, some 0⟩ 0 _⟩

/-! ## Claim C2 -/

/-- C2 (counterexample): for a subject containing `:` (one of the characters
`\ / : * ? " < > |`), the persisted `email_id` hashes the *sanitized* subject
(`a_b`), not the original one (`a:b`): the two SHA-256 digests differ. -/
theorem c2_cex :
    outlookPersistedEmailId (pyOfString "a:b") ⟨2025, 1, 7, 10, 0, 0, 0, some 0⟩ ≠
      specEmailId (pyOfString "a:b") ⟨2025, 1, 7, 10, 0, 0, 0, some 0⟩ := by
  decide

/-- C2 (amended): the persisted `email_id` is the SHA-256 of
`sanitize_filename(subject) + "|" + isoformat(received)` — the subject has the
filename-invalid characters replaced by `_` before hashing (and a naive
received time is first marked UTC).  It therefore coincides with the spec's
formula exactly when the subject contains none of `\ / : * ? " < > |` and the
received time is timezone-aware; it is deterministic in the message either
way, so re-ingestion still yields the same row key. -/
theorem c2_email_id :
    (∀ (subject : PyStr) (received : PyDateTime),
      outlookPersistedEmailId subject received =
        sha256hex (sanitize_filename subject ++ [124] ++ isoOfDateTime (tzNormalizeUtc received))) ∧
    (∀ (subject : PyStr) (received : PyDateTime),
      (∀ c ∈ subject, c ∉ invalidFileChars) → received.tzOffsetMinutes ≠ none →
      outlookPersistedEmailId subject received = specEmailId subject received) := by
  constructor
  · intro subject received
    rfl
  · intro subject received hclean htz
    have hsan : sanitize_filename subject = subject := by
      unfold sanitize_filename
      apply map_eq_self_of_mem
      intro c hc
      rw [if_neg (hclean c hc)]
    have hnorm : tzNormalizeUtc received = received := by
      unfold tzNormalizeUtc
      match h : received.tzOffsetMinutes with
      | none => exact absurd h htz
      | some _ => rfl
    unfold outlookPersistedEmailId generate_email_id specEmailId
    rw [hsan, hnorm]

/-- C2 (witness): the amended statement at a clean, timezone-aware input. -/
theorem c2_email_id_witness :
    (∀ c ∈ pyOfString "ab", c ∉ invalidFileChars) ∧
    (PyDateTime.mk 2025 1 7 10 0 0 0 (some 0)).tzOffsetMinutes ≠ none ∧
    outlookPersistedEmailId (pyOfString "ab") ⟨2025, 1, 7, 10, 0, 0, 0, some 0⟩ =
      specEmailId (pyOfString "ab") ⟨2025, 1, 7, 10, 0, 0, 0, some 0⟩ :=
  ⟨by decide, by decide, c2_email_id.2 _ _ (by decide) (by decide)⟩

/-! ## Claim C3 -/

/-- C3 (counterexample): prior email `A` (same trigger and resource) has open
ticket `MAI-1`; processing current email `B` skips ticket creation, but the
DuplicateEmail row inserted stores the *current* email's id `B` in `email_id`
(not the prior email's id `A`) and a fresh 64-character SHA-256 hash in
`duplicate_email_id` (not the current email's id). -/
theorem c3_cex :
    ((create_ticket_sync
        ⟨some (pyOfString "B"), some (pyOfString "trig"), some (pyOfString "host"),
         some (pyOfString "s"), some (pyOfString "b"), some (pyOfString "snd"),
         some (pyOfString "g"), some (pyOfString "P1"), none, some 42⟩
        true
        [⟨pyOfString "A", pyOfString "trig", pyOfString "host", 100⟩]
        [⟨pyOfString "A", some (pyOfString "MAI-1")⟩]
        (fun t => if t = pyOfString "MAI-1" then some (pyOfString "Open") else none)
        ⟨2025, 1, 7, 10, 0, 0, 0, some 0⟩ 0 (pyOfString "MAI-2")).outcome =
      TicketOutcome.skipped) ∧
    ((create_ticket_sync
        ⟨some (pyOfString "B"), some (pyOfString "trig"), some (pyOfString "host"),
         some (pyOfString "s"), some (pyOfString "b"), some (pyOfString "snd"),
         some (pyOfString "g"), some (pyOfString "P1"), none, some 42⟩
        true
        [⟨pyOfString "A", pyOfString "trig", pyOfString "host", 100⟩]
        [⟨pyOfString "A", some (pyOfString "MAI-1")⟩]
        (fun t => if t = pyOfString "MAI-1" then some (pyOfString "Open") else none)
        ⟨2025, 1, 7, 10, 0, 0, 0, some 0⟩ 0 (pyOfString "MAI-2")).dupInserted.map
        DuplicateEmailRow.email_id = some (pyOfString "B")) ∧
    pyOfString "B" ≠ pyOfString "A" ∧
    ((create_ticket_sync
        ⟨some (pyOfString "B"), some (pyOfString "trig"), some (pyOfString "host"),
         some (pyOfString "s"), some (pyOfString "b"), some (pyOfString "snd"),
         some (pyOfString "g"), some (pyOfString "P1"), none, some 42⟩
        true
        [⟨pyOfString "A", pyOfString "trig", pyOfString "host", 100⟩]
        [⟨pyOfString "A", some (pyOfString "MAI-1")⟩]
        (fun t => if t = pyOfString "MAI-1" then some (pyOfString "Open") else none)
        ⟨2025, 1, 7, 10, 0, 0, 0, some 0⟩ 0 (pyOfString "MAI-2")).dupInserted.map
        DuplicateEmailRow.duplicate_email_id ≠ some (pyOfString "B")) := by
  refine ⟨by decide, by decide, by decide, by decide⟩

/-- C3 (amended): when a prior email with the same `(trigger_name,
resource_name)` signature has a ticket whose tracker status is
(case-insensitively) one of open / in progress / to do / new / reopened /
pending / waiting / in review, no new ticket is created and the call returns
the skip tuple; the DuplicateEmail row inserted carries the *current* email's
id as `email_id` and a fresh SHA-256 of `f"{email_id}_{now.isoformat()}"` as
`duplicate_email_id`. -/
theorem c3_duplicate_suppression (d : ActionEmailData) (segs : List SegEntry)
    (jiras : List JiraEntryRow) (statusOf : PyStr → Option PyStr) (now : PyDateTime)
    (nowEpoch : Int) (newKey : PyStr) (prev : PyStr)
    (hfind : find_previous_jira_ticket segs jiras (d.trigger_name.getD [])
      (d.resource_name.getD (pyOfString "Unknown")) (d.email_id.getD []) = some prev)
    (hopen : is_ticket_open statusOf prev = true) :
    create_ticket_sync d true segs jiras statusOf now nowEpoch newKey =
      { outcome := TicketOutcome.skipped
        dupInserted := some
          { email_id := d.email_id.getD []
            duplicate_email_id := sha256hex ((d.email_id.getD []) ++ [95] ++ isoOfDateTime now)
            subject := d.subject
            body := d.body
            sender := d.sender
            received_at := d.timestampParsed.getD nowEpoch }
        ticketCreated := none } := by
  simp only [create_ticket_sync, should_create_ticket, findPreviousSafe, hfind, hopen,
    if_true, ite_true, eq_self_iff_true]

/-- C3 (witness): the amended statement at the concrete two-email scenario. -/
theorem c3_duplicate_suppression_witness :
    find_previous_jira_ticket
      [⟨pyOfString "A", pyOfString "trig", pyOfString "host", 100⟩]
      [⟨pyOfString "A", some (pyOfString "MAI-1")⟩]
      (pyOfString "trig") (pyOfString "host") (pyOfString "B") = some (pyOfString "MAI-1") ∧
    is_ticket_open (fun t => if t = pyOfString "MAI-1" then some (pyOfString "Open") else none)
      (pyOfString "MAI-1") = true ∧
    create_ticket_sync
      ⟨some (pyOfString "B"), some (pyOfString "trig"), some (pyOfString "host"),
       some (pyOfString "s"), some (pyOfString "b"), some (pyOfString "snd"),
       some (pyOfString "g"), some (pyOfString "P1"), none, some 42⟩
      true
      [⟨pyOfString "A", pyOfString "trig", pyOfString "host", 100⟩]
      [⟨pyOfString "A", some (pyOfString "MAI-1")⟩]
      (fun t => if t = pyOfString "MAI-1" then some (pyOfString "Open") else none)
      ⟨2025, 1, 7, 10, 0, 0, 0, some 0⟩ 0 (pyOfString "MAI-2") =
      { outcome := TicketOutcome.skipped
        dupInserted := some
          { email_id := pyOfString "B"
            duplicate_email_id :=
              sha256hex (pyOfString "B" ++ [95] ++
                isoOfDateTime ⟨2025, 1, 7, 10, 0, 0, 0, some 0⟩)
            subject := some (pyOfString "s")
            body := some (pyOfString "b")
            sender := some (pyOfString "snd")
            received_at := 42 }
        ticketCreated := none } :=
  ⟨by decide, by decide,
   c3_duplicate_suppression
     ⟨some (pyOfString "B"), some (pyOfString "trig"), some (pyOfString "host"),
      some (pyOfString "s"), some (pyOfString "b"), some (pyOfString "snd"),
      some (pyOfString "g"), some (pyOfString "P1"), none, some 42⟩
     [⟨pyOfString "A", pyOfString "trig", pyOfString "host", 100⟩]
     [⟨pyOfString "A", some (pyOfString "MAI-1")⟩]
     (fun t => if t = pyOfString "MAI-1" then some (pyOfString "Open") else none)
     ⟨2025, 1, 7, 10, 0, 0, 0, some 0⟩ 0 (pyOfString "MAI-2") (pyOfString "MAI-1")
     (by decide) (by decide)⟩

/-! ## Association-list helpers for the classifier proofs -/

theorem assoc_find_cons_self {α : Type} (l : List (PyStr × α)) (id : PyStr) (v : α) :
    ((((id, v) :: l).find? (fun p => p.1 == id)).map Prod.snd) = some v := by
  rw [List.find?_cons_of_pos _ (by simp)]
  rfl

theorem assoc_find_map_update {α : Type} (l : List (PyStr × α)) (id : PyStr) (g : α → α)
    (r : α) (h : ((l.find? (fun p => p.1 == id)).map Prod.snd) = some r) :
    (((l.map (fun p => if p.1 == id then (p.1, g p.2) else p)).find?
      (fun p => p.1 == id)).map Prod.snd) = some (g r) := by
  induction l with
  | nil => simp [List.find?] at h
  | cons p rest ih =>
    by_cases hp : (p.1 == id) = true
    · simp only [List.find?_cons, hp] at h
      rw [List.map_cons, if_pos hp]
      simp only [List.find?_cons, hp]
      have hpr : p.2 = r := by simpa using h
      simp [hpr]
    · simp only [List.find?_cons] at h
      rw [Bool.not_eq_true] at hp
      rw [hp] at h
      rw [List.map_cons, if_neg (by simp [hp])]
      simp only [List.find?_cons, hp]
      exact ih h

/-! ## Claim C5 -/

/-- C5: a fresh classifier message (no SegregatedEmail row yet) whose combined
`subject + " " + content` matches `machine\s+shut\s*down\s+gracefully`
(case-insensitive) is overridden to priority and type `informational` (with
recommended_action `N/A` in the in-memory dict), its SegregatedEmail row ends
with `status = true`, the message is acknowledged, and nothing is enqueued to
the next queue. -/
theorem c5_graceful_shutdown (msg : ClassMsg) (orc : ClassifierOracle)
    (db : PipelineDb) (now : Int)
    (hfresh : segFind db msg.email_id = none)
    (hmatch : gracefulShutdownMatch (msg.subject ++ (32 :: msg.content)) = true) :
    ∃ db2, processClassifierMessage msg orc db now = Except.ok ⟨db2, true, none⟩ ∧
      segFind db2 msg.email_id = some
        ⟨pyOfString "informational", pyOfString "informational",
         pyStrip orc.out1.resource_name, pyStrip orc.out1.trigger_name, true, now⟩ ∧
      db2.duplicates = db.duplicates := by
  set row0 : SegRow :=
    ⟨pyOfString "informational", pyOfString "informational",
     pyStrip orc.out1.resource_name, pyStrip orc.out1.trigger_name, false, now⟩ with hrow0
  set db1 : PipelineDb := { db with segregated := (msg.email_id, row0) :: db.segregated } with hdb1
  have h1 : insert_or_update_segregation db msg.email_id
      ⟨some (pyOfString "informational"), some (pyOfString "informational"),
       some (pyStrip orc.out1.resource_name), some (pyStrip orc.out1.trigger_name), none⟩ now =
      Except.ok db1 := by
    unfold insert_or_update_segregation
    rw [hfresh]
  have hfind1 : segFind db1 msg.email_id = some row0 :=
    assoc_find_cons_self db.segregated msg.email_id row0
  set seg2 : List (PyStr × SegRow) := db1.segregated.map
    (fun p => if p.1 == msg.email_id then (p.1, applySegData p.2 ⟨none, none, none, none, some true⟩) else p) with hseg2
  set db2 : PipelineDb := { db1 with segregated := seg2 } with hdb2
  have h2 : insert_or_update_segregation db1 msg.email_id
      ⟨none, none, none, none, some true⟩ now = Except.ok db2 := by
    unfold insert_or_update_segregation
    rw [hfind1]
  refine ⟨db2, ?_, ?_, ?_⟩
  · simp only [processClassifierMessage, hfresh, hmatch, if_true, h1, h2]
  · have := assoc_find_map_update db1.segregated msg.email_id
      (fun r => applySegData r ⟨none, none, none, none, some true⟩) row0 hfind1
    exact this
  · rfl

/-! ## Claim C1 -/

theorem insert_summary_segregated (db : PipelineDb) (id text : PyStr) (st : Bool) :
    (insert_or_update_summary db id text st).segregated = db.segregated := by
  unfold insert_or_update_summary
  cases h : sumFind db id <;> rfl

theorem insert_summary_duplicates (db : PipelineDb) (id text : PyStr) (st : Bool) :
    (insert_or_update_summary db id text st).duplicates = db.duplicates := by
  unfold insert_or_update_summary
  cases h : sumFind db id <;> rfl

theorem sumFind_upsert_true (db : PipelineDb) (id text : PyStr) :
    sumFind (insert_or_update_summary db id text true) id = some ⟨text, true⟩ := by
  unfold insert_or_update_summary
  cases h : sumFind db id with
  | none => exact assoc_find_cons_self db.summaries id ⟨text, true⟩
  | some r' =>
    exact assoc_find_map_update db.summaries id (fun _ => SummaryRow.mk text true) r' h

theorem classifierTail_p1p2 (msg : ClassMsg) (orc : ClassifierOracle) (db : PipelineDb)
    (pr ty tn rn gs ra : PyStr) (now : Int) (r : SegRow)
    (hmaint : orc.inMaintenance = false)
    (hpr : pr = pyOfString "P1" ∨ pr = pyOfString "P2")
    (hbroker : orc.brokerOk = true)
    (hseg : segFind db msg.email_id = some r) :
    classifierTail msg orc db ⟨pr, ty, tn, rn, gs, some ra⟩ now =
      Except.ok
        ⟨insert_or_update_summary (segMarkTrue db msg.email_id)
          msg.email_id (gs ++ recActionsMarker ++ ra) true,
        true,
        some (classifierPublishQueue,
          ⟨msg.email_id, msg.content, msg.subject, msg.sender_address, msg.received_time,
           msg.content, gs ++ recActionsMarker ++ ra, ra, msg.msg_path, pr, tn, rn, ty⟩)⟩ := by
  have h2 : insert_or_update_segregation db msg.email_id
      ⟨none, none, none, none, some true⟩ now =
      Except.ok (segMarkTrue db msg.email_id) := by
    unfold insert_or_update_segregation segMarkTrue
    rw [hseg]
  unfold classifierTail
  rw [if_neg (by simp [hmaint])]
  rw [if_pos hpr]
  simp only [hbroker, if_true, h2]

/-- C1 (amended): a fresh classifier message that is not a graceful-shutdown
notice, whose model priority is P1 or P2, whose resource is not in
maintenance, and whose broker connection succeeds, is processed as follows:
the classifier computes the summary text
`base_summary + "\n Recommended Actions:" + recommended_action`, enqueues the
enriched payload to its publish queue — which is the queue named by
`settings.JIRA_QUEUE_NAME` (default `my_jira_queue`, the actioner's queue),
*not* the summarize queue `settings.SUMM_QUEUE_NAME` that the Summarizer
consumes — acknowledges, and leaves SegregatedEmail and SummaryTable rows
with `status = true`. -/
theorem c1_p1p2_enqueue (msg : ClassMsg) (orc : ClassifierOracle) (db : PipelineDb) (now : Int)
    (hfresh : segFind db msg.email_id = none)
    (hng : gracefulShutdownMatch (msg.subject ++ (32 :: msg.content)) = false)
    (hpr : orc.out1.priority = pyOfString "P1" ∨ orc.out1.priority = pyOfString "P2")
    (hmaint : orc.inMaintenance = false)
    (hbroker : orc.brokerOk = true) :
    ∃ eff : ClassifierEffects, processClassifierMessage msg orc db now = Except.ok eff ∧
      eff.acked = true ∧
      eff.enqueued = some (classifierPublishQueue,
        ⟨msg.email_id, msg.content, msg.subject, msg.sender_address, msg.received_time,
         msg.content,
         classifierBaseSummary orc ++ recActionsMarker ++ orc.out2RecommendedAction,
         orc.out2RecommendedAction, msg.msg_path, orc.out1.priority,
         pyStrip orc.out1.trigger_name, pyStrip orc.out1.resource_name, orc.out1.type⟩) ∧
      classifierPublishQueue = jiraQueueSetting ∧
      classifierPublishQueue ≠ summarizerConsumeQueue ∧
      (segFind eff.db msg.email_id).map SegRow.status = some true ∧
      sumFind eff.db msg.email_id =
        some ⟨classifierBaseSummary orc ++ recActionsMarker ++ orc.out2RecommendedAction, true⟩ ∧
      eff.db.duplicates = db.duplicates := by
  set row1 : SegRow :=
    ⟨orc.out1.priority, orc.out1.type, pyStrip orc.out1.resource_name,
     pyStrip orc.out1.trigger_name, false, now⟩ with hrow1
  set db1 : PipelineDb := { db with segregated := (msg.email_id, row1) :: db.segregated } with hdb1
  have h1 : insert_or_update_segregation db msg.email_id
      ⟨some orc.out1.priority, some orc.out1.type, some (pyStrip orc.out1.resource_name),
       some (pyStrip orc.out1.trigger_name), none⟩ now = Except.ok db1 := by
    unfold insert_or_update_segregation
    rw [hfresh]
  have hfind1 : segFind db1 msg.email_id = some row1 :=
    assoc_find_cons_self db.segregated msg.email_id row1
  have hstep : processClassifierMessage msg orc db now =
      classifierTail msg orc db1
        ⟨orc.out1.priority, orc.out1.type, pyStrip orc.out1.trigger_name,
         pyStrip orc.out1.resource_name, classifierBaseSummary orc,
         some orc.out2RecommendedAction⟩ now := by
    simp only [processClassifierMessage, hng, Bool.false_eq_true, if_false, hfresh, h1,
      classifierBaseSummary]
  set db2 : PipelineDb := segMarkTrue db1 msg.email_id with hdb2
  set fullText : PyStr :=
    classifierBaseSummary orc ++ recActionsMarker ++ orc.out2RecommendedAction with hfull
  have htail := classifierTail_p1p2 msg orc db1 orc.out1.priority orc.out1.type
    (pyStrip orc.out1.trigger_name) (pyStrip orc.out1.resource_name)
    (classifierBaseSummary orc) orc.out2RecommendedAction now row1
    hmaint hpr hbroker hfind1
  refine ⟨⟨insert_or_update_summary db2 msg.email_id fullText true, true,
    some (classifierPublishQueue,
      ⟨msg.email_id, msg.content, msg.subject, msg.sender_address, msg.received_time,
       msg.content, fullText, orc.out2RecommendedAction, msg.msg_path, orc.out1.priority,
       pyStrip orc.out1.trigger_name, pyStrip orc.out1.resource_name, orc.out1.type⟩)⟩,
    ?_, rfl, rfl, rfl, by decide, ?_, ?_, ?_⟩
  · rw [hstep, htail]
  · show (segFind (insert_or_update_summary db2 msg.email_id fullText true)
      msg.email_id).map SegRow.status = some true
    unfold segFind
    rw [insert_summary_segregated]
    have hupd := assoc_find_map_update db1.segregated msg.email_id
      (fun r => applySegData r ⟨none, none, none, none, some true⟩) row1 hfind1
    rw [hdb2]
    unfold segMarkTrue
    rw [hupd]
    rfl
  · exact sumFind_upsert_true db2 msg.email_id fullText
  · show (insert_or_update_summary db2 msg.email_id fullText true).duplicates = db.duplicates
    rw [insert_summary_duplicates]
    rfl

/-- C5 (witness): the theorem at a concrete graceful-shutdown message against
an empty database. -/
theorem c5_graceful_shutdown_witness :
    segFind ⟨[], [], [], []⟩ (pyOfString "E1") = none ∧
    gracefulShutdownMatch
      (pyOfString "Machine shut down gracefully" ++ (32 :: pyOfString "all good")) = true ∧
    (∃ db2,
      processClassifierMessage
        ⟨pyOfString "E1", pyOfString "Machine shut down gracefully", pyOfString "all good",
         pyOfString "a@b", pyOfString "t0", pyOfString "p0"⟩
        ⟨⟨pyOfString "trigX", pyOfString "hostX", pyOfString "P3", pyOfString "alert",
          pyOfString "sum"⟩, false, pyOfString "N/A", none, false, true⟩
        ⟨[], [], [], []⟩ 7 = Except.ok ⟨db2, true, none⟩ ∧
      segFind db2 (pyOfString "E1") = some
        ⟨pyOfString "informational", pyOfString "informational",
         pyStrip (pyOfString "hostX"), pyStrip (pyOfString "trigX"), true, 7⟩ ∧
      db2.duplicates = (⟨[], [], [], []⟩ : PipelineDb).duplicates) :=
  ⟨by decide, by decide,
   c5_graceful_shutdown
     ⟨pyOfString "E1", pyOfString "Machine shut down gracefully", pyOfString "all good",
      pyOfString "a@b", pyOfString "t0", pyOfString "p0"⟩
     ⟨⟨pyOfString "trigX", pyOfString "hostX", pyOfString "P3", pyOfString "alert",
       pyOfString "sum"⟩, false, pyOfString "N/A", none, false, true⟩
     ⟨[], [], [], []⟩ 7 (by decide) (by decide)⟩

/-- C1 (counterexample): a concrete fresh P1 alert is enqueued to the queue
named by `settings.JIRA_QUEUE_NAME` (`my_jira_queue`), which differs from the
summarize queue `settings.SUMM_QUEUE_NAME` (`my_summ_queue`) that the
Summarizer consumes — the spec's "enqueue to Q2" routing is wrong. -/
theorem c1_cex :
    ((processClassifierMessage
        ⟨pyOfString "E2", pyOfString "disk failure", pyOfString "disk failed",
         pyOfString "a@b", pyOfString "t1", pyOfString "p1"⟩
        ⟨⟨pyOfString "trigY", pyOfString "hostY", pyOfString "P1", pyOfString "alert",
          pyOfString "base"⟩, false, pyOfString "restart", none, false, true⟩
        ⟨[], [], [], []⟩ 9).toOption.bind ClassifierEffects.enqueued).map Prod.fst =
      some jiraQueueSetting ∧
    jiraQueueSetting ≠ summarizerConsumeQueue := by decide

/-- C1 (witness): the amended theorem at a concrete fresh P1 alert. -/
theorem c1_p1p2_enqueue_witness :
    segFind ⟨[], [], [], []⟩ (pyOfString "E2") = none ∧
    gracefulShutdownMatch (pyOfString "disk failure" ++ (32 :: pyOfString "disk failed")) = false ∧
    (∃ eff : ClassifierEffects,
      processClassifierMessage
        ⟨pyOfString "E2", pyOfString "disk failure", pyOfString "disk failed",
         pyOfString "a@b", pyOfString "t1", pyOfString "p1"⟩
        ⟨⟨pyOfString "trigY", pyOfString "hostY", pyOfString "P1", pyOfString "alert",
          pyOfString "base"⟩, false, pyOfString "restart", none, false, true⟩
        ⟨[], [], [], []⟩ 9 = Except.ok eff ∧
      eff.acked = true ∧
      eff.enqueued = some (classifierPublishQueue,
        ⟨pyOfString "E2", pyOfString "disk failed", pyOfString "disk failure",
         pyOfString "a@b", pyOfString "t1", pyOfString "disk failed",
         classifierBaseSummary
           ⟨⟨pyOfString "trigY", pyOfString "hostY", pyOfString "P1", pyOfString "alert",
             pyOfString "base"⟩, false, pyOfString "restart", none, false, true⟩ ++
           recActionsMarker ++ pyOfString "restart",
         pyOfString "restart", pyOfString "p1", pyOfString "P1",
         pyStrip (pyOfString "trigY"), pyStrip (pyOfString "hostY"), pyOfString "alert"⟩) ∧
      classifierPublishQueue = jiraQueueSetting ∧
      classifierPublishQueue ≠ summarizerConsumeQueue ∧
      (segFind eff.db (pyOfString "E2")).map SegRow.status = some true ∧
      sumFind eff.db (pyOfString "E2") =
        some ⟨classifierBaseSummary
          ⟨⟨pyOfString "trigY", pyOfString "hostY", pyOfString "P1", pyOfString "alert",
            pyOfString "base"⟩, false, pyOfString "restart", none, false, true⟩ ++
          recActionsMarker ++ pyOfString "restart", true⟩ ∧
      eff.db.duplicates = (⟨[], [], [], []⟩ : PipelineDb).duplicates) :=
  ⟨by decide, by decide,
   c1_p1p2_enqueue
     ⟨pyOfString "E2", pyOfString "disk failure", pyOfString "disk failed",
      pyOfString "a@b", pyOfString "t1", pyOfString "p1"⟩
     ⟨⟨pyOfString "trigY", pyOfString "hostY", pyOfString "P1", pyOfString "alert",
       pyOfString "base"⟩, false, pyOfString "restart", none, false, true⟩
     ⟨[], [], [], []⟩ 9 (by decide) (by decide) (Or.inl (by decide))
     (by decide) (by decide)⟩

/-! ## Claim C8 -/

/-- C8 (counterexample): a prior non-informational alert for the same
`(trigger, resource)` pair sits within the window — `get_email_id_within_hour`
would find it — yet the classifier still enqueues the new alert downstream and
inserts no DuplicateEmail row: the dedup call is commented out in
`consumer.py` lines 128-145. -/
theorem c8_cex :
    (get_email_id_within_hour
      ⟨[(pyOfString "A",
         ⟨pyOfString "P1", pyOfString "alert", pyOfString "hostY", pyOfString "trigY", true, 800⟩)],
       [], [], []⟩
      (pyOfString "trigY") (pyOfString "hostY") (pyOfString "B") 1000 1).1 =
      some (pyOfString "A") ∧
    ((processClassifierMessage
        ⟨pyOfString "B", pyOfString "disk failure", pyOfString "disk failed",
         pyOfString "a@b", pyOfString "t1", pyOfString "p1"⟩
        ⟨⟨pyOfString "trigY", pyOfString "hostY", pyOfString "P1", pyOfString "alert",
          pyOfString "base"⟩, false, pyOfString "restart", none, false, true⟩
        ⟨[(pyOfString "A",
           ⟨pyOfString "P1", pyOfString "alert", pyOfString "hostY", pyOfString "trigY", true, 800⟩)],
         [], [], []⟩ 1000).toOption.bind ClassifierEffects.enqueued) ≠ none ∧
    ((processClassifierMessage
        ⟨pyOfString "B", pyOfString "disk failure", pyOfString "disk failed",
         pyOfString "a@b", pyOfString "t1", pyOfString "p1"⟩
        ⟨⟨pyOfString "trigY", pyOfString "hostY", pyOfString "P1", pyOfString "alert",
          pyOfString "base"⟩, false, pyOfString "restart", none, false, true⟩
        ⟨[(pyOfString "A",
           ⟨pyOfString "P1", pyOfString "alert", pyOfString "hostY", pyOfString "trigY", true, 800⟩)],
         [], [], []⟩ 1000).toOption.map (fun e => e.db.duplicates)) = some [] := by decide

/-- C8 (amended): the within-window suppression is dead code — even when a
prior non-informational alert for the same stripped `(trigger, resource)` pair
lies inside the look-back window, a fresh P1/P2 message outside maintenance
with a healthy broker is still enqueued downstream and no DuplicateEmail row
is inserted by the classifier. -/
theorem c8_window_dedup_dead (msg : ClassMsg) (orc : ClassifierOracle) (db : PipelineDb)
    (now : Int) (window : Nat) (prior : PyStr)
    (_hprior : (get_email_id_within_hour db (pyStrip orc.out1.trigger_name)
      (pyStrip orc.out1.resource_name) msg.email_id now window).1 = some prior)
    (hfresh : segFind db msg.email_id = none)
    (hng : gracefulShutdownMatch (msg.subject ++ (32 :: msg.content)) = false)
    (hpr : orc.out1.priority = pyOfString "P1" ∨ orc.out1.priority = pyOfString "P2")
    (hmaint : orc.inMaintenance = false)
    (hbroker : orc.brokerOk = true) :
    ∃ eff : ClassifierEffects, processClassifierMessage msg orc db now = Except.ok eff ∧
      eff.enqueued ≠ none ∧
      eff.db.duplicates = db.duplicates := by
  set row1 : SegRow :=
    ⟨orc.out1.priority, orc.out1.type, pyStrip orc.out1.resource_name,
     pyStrip orc.out1.trigger_name, false, now⟩ with hrow1
  set db1 : PipelineDb := { db with segregated := (msg.email_id, row1) :: db.segregated } with hdb1
  have h1 : insert_or_update_segregation db msg.email_id
      ⟨some orc.out1.priority, some orc.out1.type, some (pyStrip orc.out1.resource_name),
       some (pyStrip orc.out1.trigger_name), none⟩ now = Except.ok db1 := by
    unfold insert_or_update_segregation
    rw [hfresh]
  have hfind1 : segFind db1 msg.email_id = some row1 :=
    assoc_find_cons_self db.segregated msg.email_id row1
  have hstep : processClassifierMessage msg orc db now =
      classifierTail msg orc db1
        ⟨orc.out1.priority, orc.out1.type, pyStrip orc.out1.trigger_name,
         pyStrip orc.out1.resource_name, classifierBaseSummary orc,
         some orc.out2RecommendedAction⟩ now := by
    simp only [processClassifierMessage, hng, Bool.false_eq_true, if_false, hfresh, h1,
      classifierBaseSummary]
  have htail := classifierTail_p1p2 msg orc db1 orc.out1.priority orc.out1.type
    (pyStrip orc.out1.trigger_name) (pyStrip orc.out1.resource_name)
    (classifierBaseSummary orc) orc.out2RecommendedAction now row1
    hmaint hpr hbroker hfind1
  set fullText : PyStr :=
    classifierBaseSummary orc ++ recActionsMarker ++ orc.out2RecommendedAction with hfull
  refine ⟨⟨insert_or_update_summary (segMarkTrue db1 msg.email_id) msg.email_id fullText true, true,
    some (classifierPublishQueue,
      ⟨msg.email_id, msg.content, msg.subject, msg.sender_address, msg.received_time,
       msg.content, fullText, orc.out2RecommendedAction, msg.msg_path, orc.out1.priority,
       pyStrip orc.out1.trigger_name, pyStrip orc.out1.resource_name, orc.out1.type⟩)⟩,
    ?_, ?_, ?_⟩
  · rw [hstep, htail]
  · exact Option.some_ne_none _
  · show (insert_or_update_summary (segMarkTrue db1 msg.email_id)
      msg.email_id fullText true).duplicates = db.duplicates
    rw [insert_summary_duplicates]
    rfl

/-- C8 (witness): the amended theorem at the concrete two-alert scenario of the
counterexample. -/
theorem c8_window_dedup_dead_witness :
    (get_email_id_within_hour
      ⟨[(pyOfString "A",
         ⟨pyOfString "P1", pyOfString "alert", pyOfString "hostY", pyOfString "trigY", true, 800⟩)],
       [], [], []⟩
      (pyStrip (pyOfString "trigY")) (pyStrip (pyOfString "hostY")) (pyOfString "B") 1000 1).1 =
      some (pyOfString "A") ∧
    (∃ eff : ClassifierEffects,
      processClassifierMessage
        ⟨pyOfString "B", pyOfString "disk failure", pyOfString "disk failed",
         pyOfString "a@b", pyOfString "t1", pyOfString "p1"⟩
        ⟨⟨pyOfString "trigY", pyOfString "hostY", pyOfString "P1", pyOfString "alert",
          pyOfString "base"⟩, false, pyOfString "restart", none, false, true⟩
        ⟨[(pyOfString "A",
           ⟨pyOfString "P1", pyOfString "alert", pyOfString "hostY", pyOfString "trigY", true, 800⟩)],
         [], [], []⟩ 1000 = Except.ok eff ∧
      eff.enqueued ≠ none ∧
      eff.db.duplicates =
        (⟨[(pyOfString "A",
            ⟨pyOfString "P1", pyOfString "alert", pyOfString "hostY", pyOfString "trigY", true, 800⟩)],
          [], [], []⟩ : PipelineDb).duplicates) :=
  ⟨by decide,
   c8_window_dedup_dead
     ⟨pyOfString "B", pyOfString "disk failure", pyOfString "disk failed",
      pyOfString "a@b", pyOfString "t1", pyOfString "p1"⟩
     ⟨⟨pyOfString "trigY", pyOfString "hostY", pyOfString "P1", pyOfString "alert",
       pyOfString "base"⟩, false, pyOfString "restart", none, false, true⟩
     ⟨[(pyOfString "A",
        ⟨pyOfString "P1", pyOfString "alert", pyOfString "hostY", pyOfString "trigY", true, 800⟩)],
      [], [], []⟩ 1000 1 (pyOfString "A")
     (by decide) (by decide) (by decide) (Or.inl (by decide)) (by decide) (by decide)⟩
